import Mathlib

set_option maxHeartbeats 1000000

deriving instance DecidableEq for Except

/-!
Verification of the SPIR-V reflection engine of `vulkano-shaders` (file
`vulkano-shaders/src/lib.rs`) and of the descriptor-set layout traits of
`vulkano/src/descriptor_set/layout_def.rs`.

The instruction model mirrors the `parse::Instruction` variants exactly as
they are matched in `lib.rs`.  The enumerations (`ExecutionModel`,
`StorageClass`, `Decoration`, `Capability`, `Dim`, `ImageFormat`,
`AccessQualifier`) mirror the closed Rust enums of the crate's `enums`
module; `capability_name` in `lib.rs` matches every `Capability` variant
exhaustively, so that enumeration is reproduced verbatim from its match arms.

Rust panics (`panic!`, `unreachable!`, `.expect`, out-of-bounds indexing) are
modelled as `Except` errors carrying the same information as the panic
message; machine integers are modelled as `Nat` with explicit `% 2 ^ 64`
where 64-bit overflow matters.
-/

/-- Execution models of the `enums` module, as matched in `write_entry_point`. -/
inductive ExecutionModel where
  | ExecutionModelVertex
  | ExecutionModelTessellationControl
  | ExecutionModelTessellationEvaluation
  | ExecutionModelGeometry
  | ExecutionModelFragment
  | ExecutionModelGLCompute
  | ExecutionModelKernel
deriving DecidableEq

/-- Storage classes of the `enums` module (SPIR-V 1.0 list). -/
inductive StorageClass where
  | StorageClassUniformConstant
  | StorageClassInput
  | StorageClassUniform
  | StorageClassOutput
  | StorageClassWorkgroupLocal
  | StorageClassWorkgroupGlobal
  | StorageClassPrivateGlobal
  | StorageClassFunction
  | StorageClassGeneric
  | StorageClassPushConstant
  | StorageClassAtomicCounter
  | StorageClassImage
deriving DecidableEq

/-- Decorations of the `enums` module; the subset of the SPIR-V 1.0 list that
the reflection code inspects or that a decoded module commonly carries. -/
inductive Decoration where
  | DecorationRelaxedPrecision
  | DecorationSpecId
  | DecorationBlock
  | DecorationBufferBlock
  | DecorationRowMajor
  | DecorationColMajor
  | DecorationArrayStride
  | DecorationMatrixStride
  | DecorationBuiltIn
  | DecorationNoPerspective
  | DecorationFlat
  | DecorationLocation
  | DecorationComponent
  | DecorationIndex
  | DecorationBinding
  | DecorationDescriptorSet
  | DecorationOffset
deriving DecidableEq

/-- Image dimensionalities of the `enums` module. -/
inductive Dim where
  | Dim1D
  | Dim2D
  | Dim3D
  | DimCube
  | DimRect
  | DimBuffer
  | DimSubpassData
deriving DecidableEq

/-- Image formats of the `enums` module (SPIR-V 1.0 list). -/
inductive ImageFormat where
  | ImageFormatUnknown
  | ImageFormatRgba32f
  | ImageFormatRgba16f
  | ImageFormatR32f
  | ImageFormatRgba8
  | ImageFormatRgba8Snorm
  | ImageFormatRg32f
  | ImageFormatRg16f
  | ImageFormatR11fG11fB10f
  | ImageFormatR16f
  | ImageFormatRgba16
  | ImageFormatRgb10A2
  | ImageFormatRg16
  | ImageFormatRg8
  | ImageFormatR16
  | ImageFormatR8
  | ImageFormatRgba16Snorm
  | ImageFormatRg16Snorm
  | ImageFormatRg8Snorm
  | ImageFormatR16Snorm
  | ImageFormatR8Snorm
  | ImageFormatRgba32i
  | ImageFormatRgba16i
  | ImageFormatRgba8i
  | ImageFormatR32i
  | ImageFormatRg32i
  | ImageFormatRg16i
  | ImageFormatRg8i
  | ImageFormatR16i
  | ImageFormatR8i
  | ImageFormatRgba32ui
  | ImageFormatRgba16ui
  | ImageFormatRgba8ui
  | ImageFormatR32ui
  | ImageFormatRgb10a2ui
  | ImageFormatRg32ui
  | ImageFormatRg16ui
  | ImageFormatRg8ui
  | ImageFormatR16ui
  | ImageFormatR8ui
deriving DecidableEq

/-- Access qualifiers of the `enums` module. -/
inductive AccessQualifier where
  | AccessQualifierReadOnly
  | AccessQualifierWriteOnly
  | AccessQualifierReadWrite
deriving DecidableEq

/-- Capabilities of the `enums` module.  `capability_name` in `lib.rs`
matches this enumeration exhaustively, so the variant list is taken verbatim
from its match arms. -/
inductive Capability where
  | CapabilityMatrix
  | CapabilityShader
  | CapabilityGeometry
  | CapabilityTessellation
  | CapabilityAddresses
  | CapabilityLinkage
  | CapabilityKernel
  | CapabilityVector16
  | CapabilityFloat16Buffer
  | CapabilityFloat16
  | CapabilityFloat64
  | CapabilityInt64
  | CapabilityInt64Atomics
  | CapabilityImageBasic
  | CapabilityImageReadWrite
  | CapabilityImageMipmap
  | CapabilityPipes
  | CapabilityGroups
  | CapabilityDeviceEnqueue
  | CapabilityLiteralSampler
  | CapabilityAtomicStorage
  | CapabilityInt16
  | CapabilityTessellationPointSize
  | CapabilityGeometryPointSize
  | CapabilityImageGatherExtended
  | CapabilityStorageImageMultisample
  | CapabilityUniformBufferArrayDynamicIndexing
  | CapabilitySampledImageArrayDynamicIndexing
  | CapabilityStorageBufferArrayDynamicIndexing
  | CapabilityStorageImageArrayDynamicIndexing
  | CapabilityClipDistance
  | CapabilityCullDistance
  | CapabilityImageCubeArray
  | CapabilitySampleRateShading
  | CapabilityImageRect
  | CapabilitySampledRect
  | CapabilityGenericPointer
  | CapabilityInt8
  | CapabilityInputAttachment
  | CapabilitySparseResidency
  | CapabilityMinLod
  | CapabilitySampled1D
  | CapabilityImage1D
  | CapabilitySampledCubeArray
  | CapabilitySampledBuffer
  | CapabilityImageBuffer
  | CapabilityImageMSArray
  | CapabilityStorageImageExtendedFormats
  | CapabilityImageQuery
  | CapabilityDerivativeControl
  | CapabilityInterpolationFunction
  | CapabilityTransformFeedback
  | CapabilityGeometryStreams
  | CapabilityStorageImageReadWithoutFormat
  | CapabilityStorageImageWriteWithoutFormat
  | CapabilityMultiViewport
deriving DecidableEq

/-- The decoded instruction variants of the `parse` module, with the fields
`lib.rs` matches on.  Unrecognized opcodes are preserved opaquely. -/
inductive Instruction where
  | Unknown (opcode : Nat) (operands : List Nat)
  | Name (target_id : Nat) (name : String)
  | MemberName (target_id : Nat) (member : Nat) (name : String)
  | EntryPoint (execution : ExecutionModel) (id : Nat) (name : String)
      (interface : List Nat)
  | Capability (cap : Capability)
  | TypeVoid (result_id : Nat)
  | TypeBool (result_id : Nat)
  | TypeInt (result_id : Nat) (width : Nat) (signedness : Bool)
  | TypeFloat (result_id : Nat) (width : Nat)
  | TypeVector (result_id : Nat) (component_id : Nat) (count : Nat)
  | TypeMatrix (result_id : Nat) (column_type_id : Nat) (column_count : Nat)
  | TypeImage (result_id : Nat) (sampled_type_id : Nat) (dim : Dim)
      (depth : Option Bool) (arrayed : Bool) (ms : Bool) (sampled : Option Bool)
      (format : ImageFormat) (access : Option AccessQualifier)
  | TypeSampledImage (result_id : Nat) (image_type_id : Nat)
  | TypeArray (result_id : Nat) (type_id : Nat) (length_id : Nat)
  | TypeRuntimeArray (result_id : Nat) (type_id : Nat)
  | TypeStruct (result_id : Nat) (member_types : List Nat)
  | TypeOpaque (result_id : Nat) (name : String)
  | TypePointer (result_id : Nat) (type_id : Nat) (storage_class : StorageClass)
  | Constant (result_type_id : Nat) (result_id : Nat) (data : List Nat)
  | Variable (result_type_id : Nat) (result_id : Nat)
      (storage_class : StorageClass)
  | Decorate (target_id : Nat) (decoration : Decoration) (params : List Nat)
  | MemberDecorate (target_id : Nat) (member : Nat) (decoration : Decoration)
      (params : List Nat)
  | FunctionEnd
deriving DecidableEq

/-- The decoded module (`parse::Spirv`): an ordered instruction sequence. -/
structure Spirv where
  instructions : List Instruction
deriving DecidableEq

/-- Errors of the decoder (`parse::ParseError`), per the format contract:
short header, bad magic word, zero word count, or a word count past the end. -/
inductive ParseError where
  | missingHeader
  | wrongHeader
  | zeroWordCount
  | incompleteInstruction
  | unknownEnumValue (kind : String) (value : Nat)
deriving DecidableEq

/-- The failure modes of one reflection pass.  `ioError` and `parseError`
mirror the `Error` enum of `lib.rs`; the remaining variants model the Rust
panics of the reflection code, carrying what the panic message carries. -/
inductive ReflectError where
  | ioError
  | parseError (e : ParseError)
  | typeNotFound (id : Nat)
  | arrayLengthNotFound
  | missingLocation (name : String)
  | kernelsNotSupported
  | unsupportedCapability
  | decorationIndexOutOfBounds
  | notAnEntryPoint
  | missingBindingDecoration (name : String)
  | missingSetDecoration (name : String)
deriving DecidableEq

/-- `name_from_id`: first `Name` instruction targeting `searched`, kept if
non-empty, else the `__unnamed` placeholder (mirrors the Rust
`filter_map` / `next` / `and_then` / `unwrap_or` chain). -/
def name_from_id (doc : Spirv) (searched : Nat) : String :=
  (((doc.instructions.filterMap (fun i =>
      match i with
      | .Name target_id n => if target_id = searched then some n else none
      | _ => none)).head?).bind
    (fun n => if !n.isEmpty then some n else none)).getD "__unnamed"

/-- `member_name_from_id`: same policy for `MemberName`, scoped to one member. -/
def member_name_from_id (doc : Spirv) (searched : Nat) (searched_member : Nat) :
    String :=
  (((doc.instructions.filterMap (fun i =>
      match i with
      | .MemberName target_id member n =>
        if target_id = searched && member = searched_member then some n else none
      | _ => none)).head?).bind
    (fun n => if !n.isEmpty then some n else none)).getD "__unnamed"

/-- `location_decoration`: the first `Location` decoration targeting
`searched`, reading `params[0]`; the out-of-bounds index panic of the Rust
code is modelled as an error. -/
def location_decoration (doc : Spirv) (searched : Nat) :
    Except ReflectError (Option Nat) :=
  match doc.instructions.findSome? (fun i =>
      match i with
      | .Decorate target_id .DecorationLocation params =>
        if target_id = searched then some params else none
      | _ => none) with
  | some params =>
    match params.head? with
    | some l => .ok (some l)
    | none => .error .decorationIndexOutOfBounds
  | none => .ok none

/-- `is_builtin`: true iff some `BuiltIn` decoration targets `id`. -/
def is_builtin (doc : Spirv) (id : Nat) : Bool :=
  doc.instructions.any (fun i =>
    match i with
    | .Decorate target_id .DecorationBuiltIn _ => target_id = id
    | _ => false)

/-- The Debug rendering of a `Dim`, as interpolated by `type_from_id`. -/
def dimDebug : Dim → String
  | .Dim1D => "Dim1D"
  | .Dim2D => "Dim2D"
  | .Dim3D => "Dim3D"
  | .DimCube => "DimCube"
  | .DimRect => "DimRect"
  | .DimBuffer => "DimBuffer"
  | .DimSubpassData => "DimSubpassData"

/-- The Debug rendering of an `ImageFormat`, as interpolated by `type_from_id`. -/
def imageFormatDebug : ImageFormat → String
  | .ImageFormatUnknown => "ImageFormatUnknown"
  | .ImageFormatRgba32f => "ImageFormatRgba32f"
  | .ImageFormatRgba16f => "ImageFormatRgba16f"
  | .ImageFormatR32f => "ImageFormatR32f"
  | .ImageFormatRgba8 => "ImageFormatRgba8"
  | .ImageFormatRgba8Snorm => "ImageFormatRgba8Snorm"
  | .ImageFormatRg32f => "ImageFormatRg32f"
  | .ImageFormatRg16f => "ImageFormatRg16f"
  | .ImageFormatR11fG11fB10f => "ImageFormatR11fG11fB10f"
  | .ImageFormatR16f => "ImageFormatR16f"
  | .ImageFormatRgba16 => "ImageFormatRgba16"
  | .ImageFormatRgb10A2 => "ImageFormatRgb10A2"
  | .ImageFormatRg16 => "ImageFormatRg16"
  | .ImageFormatRg8 => "ImageFormatRg8"
  | .ImageFormatR16 => "ImageFormatR16"
  | .ImageFormatR8 => "ImageFormatR8"
  | .ImageFormatRgba16Snorm => "ImageFormatRgba16Snorm"
  | .ImageFormatRg16Snorm => "ImageFormatRg16Snorm"
  | .ImageFormatRg8Snorm => "ImageFormatRg8Snorm"
  | .ImageFormatR16Snorm => "ImageFormatR16Snorm"
  | .ImageFormatR8Snorm => "ImageFormatR8Snorm"
  | .ImageFormatRgba32i => "ImageFormatRgba32i"
  | .ImageFormatRgba16i => "ImageFormatRgba16i"
  | .ImageFormatRgba8i => "ImageFormatRgba8i"
  | .ImageFormatR32i => "ImageFormatR32i"
  | .ImageFormatRg32i => "ImageFormatRg32i"
  | .ImageFormatRg16i => "ImageFormatRg16i"
  | .ImageFormatRg8i => "ImageFormatRg8i"
  | .ImageFormatR16i => "ImageFormatR16i"
  | .ImageFormatR8i => "ImageFormatR8i"
  | .ImageFormatRgba32ui => "ImageFormatRgba32ui"
  | .ImageFormatRgba16ui => "ImageFormatRgba16ui"
  | .ImageFormatRgba8ui => "ImageFormatRgba8ui"
  | .ImageFormatR32ui => "ImageFormatR32ui"
  | .ImageFormatRgb10a2ui => "ImageFormatRgb10a2ui"
  | .ImageFormatRg32ui => "ImageFormatRg32ui"
  | .ImageFormatRg16ui => "ImageFormatRg16ui"
  | .ImageFormatRg8ui => "ImageFormatRg8ui"
  | .ImageFormatR16ui => "ImageFormatR16ui"
  | .ImageFormatR8ui => "ImageFormatR8ui"

/-- Whether `i` is a type instruction whose result id is `id`; this is the
condition under which the search loop of `type_from_id` returns for `i`. -/
def isTypeInstrWithId (i : Instruction) (id : Nat) : Bool :=
  match i with
  | .TypeVoid r => r = id
  | .TypeBool r => r = id
  | .TypeInt r _ _ => r = id
  | .TypeFloat r _ => r = id
  | .TypeVector r _ _ => r = id
  | .TypeMatrix r _ _ => r = id
  | .TypeImage r _ _ _ _ _ _ _ _ => r = id
  | .TypeSampledImage r _ => r = id
  | .TypeArray r _ _ => r = id
  | .TypeRuntimeArray r _ => r = id
  | .TypeStruct r _ => r = id
  | .TypeOpaque r _ => r = id
  | .TypePointer r _ _ => r = id
  | _ => false

/-- The first type instruction of the sequence whose result id is `searched`
(the instruction at which the scan of `type_from_id` stops). -/
def findTypeInstr (instrs : List Instruction) (searched : Nat) :
    Option Instruction :=
  instrs.find? (fun i => isTypeInstrWithId i searched)

/-- The payload of the first `Constant` instruction whose result id is
`lengthId` (the `filter_map` / `next` lookup in the `TypeArray` arm). -/
def findConstant (instrs : List Instruction) (lengthId : Nat) :
    Option (List Nat) :=
  instrs.findSome? (fun i =>
    match i with
    | .Constant _ result_id data => if result_id = lengthId then some data else none
    | _ => none)

/-- `len.iter().rev().fold(0u64, |a, &b| (a << 32) | b as u64)`: the raw
constant payload reinterpreted as an unsigned 64-bit value, wrapping mod
`2 ^ 64` as the Rust `u64` arithmetic does. -/
def decodeLen (data : List Nat) : Nat :=
  data.reverse.foldl (fun a b => ((a <<< 32) ||| b) % 2 ^ 64) 0

/-- `type_from_id`, with explicit recursion fuel: the Rust function recurses
through the type graph without a bound, so on a (malformed) cyclic module it
would not terminate; with fuel at least the index of the first matching type
instruction the two agree (see the well-formedness results below).  Each arm
is the corresponding match arm of the Rust loop; the `.expect` on the array
length and the final `panic!` are the two error outcomes. -/
def typeFromIdFuel (doc : Spirv) : Nat → Nat → Except ReflectError String
  | 0, searched => .error (.typeNotFound searched)
  | fuel + 1, searched =>
    match findTypeInstr doc.instructions searched with
    | some (.TypeVoid _) => .ok "()"
    | some (.TypeBool _) => .ok "bool"
    | some (.TypeInt _ _ _) => .ok "i32"
    | some (.TypeFloat _ _) => .ok "f32"
    | some (.TypeVector _ component_id count) =>
      match typeFromIdFuel doc fuel component_id with
      | .ok t => .ok ("[" ++ t ++ "; " ++ toString count ++ "]")
      | .error e => .error e
    | some (.TypeMatrix _ column_type_id column_count) =>
      match typeFromIdFuel doc fuel column_type_id with
      | .ok t => .ok ("[" ++ t ++ "; " ++ toString column_count ++ "]")
      | .error e => .error e
    | some (.TypeImage _ _ dim depth arrayed ms _ format _) =>
      .ok ((if ms then "Multisample" else "")
        ++ (if depth = some true then "Depth" else "")
        ++ "Texture" ++ dimDebug dim
        ++ (if arrayed then "Array" else "")
        ++ imageFormatDebug format)
    | some (.TypeSampledImage _ image_type_id) =>
      typeFromIdFuel doc fuel image_type_id
    | some (.TypeArray _ type_id length_id) =>
      match typeFromIdFuel doc fuel type_id with
      | .ok t =>
        match findConstant doc.instructions length_id with
        | some data =>
          .ok ("[" ++ t ++ "; " ++ toString (decodeLen data) ++ "]")
        | none => .error .arrayLengthNotFound
      | .error e => .error e
    | some (.TypeRuntimeArray _ type_id) =>
      match typeFromIdFuel doc fuel type_id with
      | .ok t => .ok ("[" ++ t ++ "]")
      | .error e => .error e
    | some (.TypeStruct result_id _) => .ok (name_from_id doc result_id)
    | some (.TypeOpaque _ _) => .ok "<opaque>"
    | some (.TypePointer _ type_id _) => typeFromIdFuel doc fuel type_id
    | some _ => .error (.typeNotFound searched)
    | none => .error (.typeNotFound searched)

/-- `type_from_id` at the canonical fuel (the module's instruction count,
which suffices whenever the type declarations are well formed). -/
def type_from_id (doc : Spirv) (searched : Nat) : Except ReflectError String :=
  typeFromIdFuel doc doc.instructions.length searched

/-- `capability_name`: the classification of one capability tag.  `.ok none`
is the "always supported" row, `.ok (some f)` names the device feature flag
checked for that tag, and the error models the `panic!()` of every
"not supported" row. -/
def capability_name (cap : Capability) : Except ReflectError (Option String) :=
  match cap with
  | .CapabilityMatrix => .ok none
  | .CapabilityShader => .ok none
  | .CapabilityGeometry => .ok (some "geometry_shader")
  | .CapabilityTessellation => .ok (some "tessellation_shader")
  | .CapabilityAddresses => .error .unsupportedCapability
  | .CapabilityLinkage => .error .unsupportedCapability
  | .CapabilityKernel => .error .unsupportedCapability
  | .CapabilityVector16 => .error .unsupportedCapability
  | .CapabilityFloat16Buffer => .error .unsupportedCapability
  | .CapabilityFloat16 => .error .unsupportedCapability
  | .CapabilityFloat64 => .ok (some "shader_f3264")
  | .CapabilityInt64 => .ok (some "shader_int64")
  | .CapabilityInt64Atomics => .error .unsupportedCapability
  | .CapabilityImageBasic => .error .unsupportedCapability
  | .CapabilityImageReadWrite => .error .unsupportedCapability
  | .CapabilityImageMipmap => .error .unsupportedCapability
  | .CapabilityPipes => .error .unsupportedCapability
  | .CapabilityGroups => .error .unsupportedCapability
  | .CapabilityDeviceEnqueue => .error .unsupportedCapability
  | .CapabilityLiteralSampler => .error .unsupportedCapability
  | .CapabilityAtomicStorage => .error .unsupportedCapability
  | .CapabilityInt16 => .ok (some "shader_int16")
  | .CapabilityTessellationPointSize =>
    .ok (some "shader_tessellation_and_geometry_point_size")
  | .CapabilityGeometryPointSize =>
    .ok (some "shader_tessellation_and_geometry_point_size")
  | .CapabilityImageGatherExtended => .ok (some "shader_image_gather_extended")
  | .CapabilityStorageImageMultisample =>
    .ok (some "shader_storage_image_multisample")
  | .CapabilityUniformBufferArrayDynamicIndexing =>
    .ok (some "shader_uniform_buffer_array_dynamic_indexing")
  | .CapabilitySampledImageArrayDynamicIndexing =>
    .ok (some "shader_sampled_image_array_dynamic_indexing")
  | .CapabilityStorageBufferArrayDynamicIndexing =>
    .ok (some "shader_storage_buffer_array_dynamic_indexing")
  | .CapabilityStorageImageArrayDynamicIndexing =>
    .ok (some "shader_storage_image_array_dynamic_indexing")
  | .CapabilityClipDistance => .ok (some "shader_clip_distance")
  | .CapabilityCullDistance => .ok (some "shader_cull_distance")
  | .CapabilityImageCubeArray => .ok (some "image_cube_array")
  | .CapabilitySampleRateShading => .ok (some "sample_rate_shading")
  | .CapabilityImageRect => .error .unsupportedCapability
  | .CapabilitySampledRect => .error .unsupportedCapability
  | .CapabilityGenericPointer => .error .unsupportedCapability
  | .CapabilityInt8 => .error .unsupportedCapability
  | .CapabilityInputAttachment => .ok none
  | .CapabilitySparseResidency => .ok (some "shader_resource_residency")
  | .CapabilityMinLod => .ok (some "shader_resource_min_lod")
  | .CapabilitySampled1D => .ok none
  | .CapabilityImage1D => .ok none
  | .CapabilitySampledCubeArray => .ok (some "image_cube_array")
  | .CapabilitySampledBuffer => .ok none
  | .CapabilityImageBuffer => .ok none
  | .CapabilityImageMSArray => .ok (some "shader_storage_image_multisample")
  | .CapabilityStorageImageExtendedFormats =>
    .ok (some "shader_storage_image_extended_formats")
  | .CapabilityImageQuery => .ok none
  | .CapabilityDerivativeControl => .ok none
  | .CapabilityInterpolationFunction => .ok (some "sample_rate_shading")
  | .CapabilityTransformFeedback => .error .unsupportedCapability
  | .CapabilityGeometryStreams => .error .unsupportedCapability
  | .CapabilityStorageImageReadWithoutFormat =>
    .ok (some "shader_storage_image_read_without_format")
  | .CapabilityStorageImageWriteWithoutFormat =>
    .ok (some "shader_storage_image_write_without_format")
  | .CapabilityMultiViewport => .ok (some "multi_viewport")

/-- The inner instruction scan of the vertex branch of `write_entry_point`:
for each instruction, an `Input`-class variable whose result id equals the
current interface id contributes its resolved type and, unless it is a
builtin, its `(location, name)` pair; a missing `Location` decoration is the
`vertex attribute ... is missing a location` panic.  The two accumulators
mirror the `input_types` / `attributes` vectors. -/
def vertexInner (doc : Spirv) (iid : Nat)
    (acc : List String × List (Nat × String)) :
    List Instruction → Except ReflectError (List String × List (Nat × String))
  | [] => .ok acc
  | i :: rest =>
    match i with
    | .Variable result_type_id result_id .StorageClassInput =>
      if result_id = iid then
        if is_builtin doc result_id then vertexInner doc iid acc rest
        else
          match type_from_id doc result_type_id with
          | .error e => .error e
          | .ok t =>
            match location_decoration doc result_id with
            | .error e => .error e
            | .ok none =>
              .error (.missingLocation (name_from_id doc result_id))
            | .ok (some loc) =>
              vertexInner doc iid
                (acc.1 ++ [t], acc.2 ++ [(loc, name_from_id doc result_id)])
                rest
      else vertexInner doc iid acc rest
    | _ => vertexInner doc iid acc rest

/-- The outer loop of the vertex branch, over the entry point's interface
list. -/
def vertexOuter (doc : Spirv)
    (acc : List String × List (Nat × String)) :
    List Nat → Except ReflectError (List String × List (Nat × String))
  | [] => .ok acc
  | iid :: rest =>
    match vertexInner doc iid acc doc.instructions with
    | .error e => .error e
    | .ok acc' => vertexOuter doc acc' rest

/-- The vertex-stage interface extraction of `write_entry_point`: the
`(input_types, attributes)` pair accumulated over the interface list. -/
def vertexData (doc : Spirv) (interface : List Nat) :
    Except ReflectError (List String × List (Nat × String)) :=
  vertexOuter doc ([], []) interface

/-- The inner instruction scan of the fragment branch of `write_entry_point`:
an `Output`-class variable whose result id equals the current interface id
contributes its resolved type; no builtin filtering is applied. -/
def fragmentInner (doc : Spirv) (iid : Nat) (acc : List String) :
    List Instruction → Except ReflectError (List String)
  | [] => .ok acc
  | i :: rest =>
    match i with
    | .Variable result_type_id result_id .StorageClassOutput =>
      if result_id = iid then
        match type_from_id doc result_type_id with
        | .error e => .error e
        | .ok t => fragmentInner doc iid (acc ++ [t]) rest
      else fragmentInner doc iid acc rest
    | _ => fragmentInner doc iid acc rest

/-- The outer loop of the fragment branch, over the interface list. -/
def fragmentOuter (doc : Spirv) (acc : List String) :
    List Nat → Except ReflectError (List String)
  | [] => .ok acc
  | iid :: rest =>
    match fragmentInner doc iid acc doc.instructions with
    | .error e => .error e
    | .ok acc' => fragmentOuter doc acc' rest

/-- The fragment-stage interface extraction of `write_entry_point`: the
`output_types` vector accumulated over the interface list. -/
def fragmentData (doc : Spirv) (interface : List Nat) :
    Except ReflectError (List String) :=
  fragmentOuter doc [] interface

/-- The numeric encoding of an entry point name used for the generated
`NAME` byte array: each character as its decimal code point. -/
def encodedEpName (name : String) : String :=
  String.intercalate ", " (name.toList.map (fun c => toString c.toNat))

/-- `write_entry_point`: one generated accessor method per entry point.  The
`unreachable!()` on a non-entry-point instruction, the missing-location panic
(via `vertexData`) and the `Kernels are not supported` panic are the error
outcomes. -/
def write_entry_point (doc : Spirv) (instruction : Instruction) :
    Except ReflectError String :=
  match instruction with
  | .EntryPoint execution _ ep_name interface =>
    match (match execution with
      | .ExecutionModelVertex =>
        match vertexData doc interface with
        | .error e => .error e
        | .ok (input_types, attributes) =>
          let input0 := String.intercalate ", " input_types
          let input := if input0.isEmpty then input0 else input0 ++ ","
          let attrs := String.intercalate ", " (attributes.map (fun p =>
            "(" ++ toString p.1 ++ ", ::std::borrow::Cow::Borrowed(\"" ++ p.2
              ++ "\"))"))
          .ok ("::vulkano::shader::VertexShaderEntryPoint<(" ++ input
              ++ "), Layout>",
            "vertex_shader_entry_point(::std::ffi::CStr::from_ptr(NAME.as_ptr() as *const _), Layout, vec![" ++ attrs ++ "])")
      | .ExecutionModelTessellationControl =>
        .ok ("::vulkano::shader::TessControlShaderEntryPoint", "")
      | .ExecutionModelTessellationEvaluation =>
        .ok ("::vulkano::shader::TessEvaluationShaderEntryPoint", "")
      | .ExecutionModelGeometry =>
        .ok ("::vulkano::shader::GeometryShaderEntryPoint", "")
      | .ExecutionModelFragment =>
        match fragmentData doc interface with
        | .error e => .error e
        | .ok output_types =>
          let output0 := String.intercalate ", " output_types
          let output := if output0.isEmpty then output0 else output0 ++ ","
          .ok ("::vulkano::shader::FragmentShaderEntryPoint<(" ++ output
              ++ "), Layout>",
            "fragment_shader_entry_point(::std::ffi::CStr::from_ptr(NAME.as_ptr() as *const _), Layout)")
      | .ExecutionModelGLCompute =>
        .ok ("::vulkano::shader::ComputeShaderEntryPoint",
          "compute_shader_entry_point")
      | .ExecutionModelKernel =>
        .error .kernelsNotSupported :
        Except ReflectError (String × String)) with
    | .error e => .error e
    | .ok (ty, f_call) =>
      .ok ("\n    /// Returns a logical struct describing the entry point named `"
        ++ ep_name ++ "`.\n    #[inline]\n    pub fn " ++ ep_name
        ++ "_entry_point(&self) -> " ++ ty
        ++ " \x7b\n        unsafe \x7b\n            #[allow(dead_code)]\n            static NAME: [u8; "
        ++ toString (ep_name.length + 1) ++ "] = [" ++ encodedEpName ep_name
        ++ ", 0];     // \"" ++ ep_name
        ++ "\"\n            self.shader." ++ f_call
        ++ "\n        \x7d\n    \x7d\n            ")
  | _ => .error .notAnEntryPoint

/-- The capability loop of `reflect`: each `Capability` instruction whose tag
maps to a feature flag contributes that flag, "always supported" tags
contribute nothing, and an unsupported tag aborts the pass. -/
def capabilityChecks :
    List Instruction → Except ReflectError (List String)
  | [] => .ok []
  | i :: rest =>
    match i with
    | .Capability cap =>
      match capability_name cap with
      | .error e => .error e
      | .ok none => capabilityChecks rest
      | .ok (some f) =>
        match capabilityChecks rest with
        | .error e => .error e
        | .ok l => .ok (f :: l)
    | _ => capabilityChecks rest


/-- Low bits of a 32-bit left shift and a value below `2 ^ 32` do not
overlap, so their bitwise or is their sum. -/
theorem lor_shiftLeft32_eq_add {a b : Nat} (hb : b < 2 ^ 32) :
    (a <<< 32) ||| b = a <<< 32 + b := by
  apply Nat.eq_of_testBit_eq
  intro i
  rw [Nat.testBit_lor]
  rcases Nat.lt_or_ge i 32 with hi | hi
  · have h1 : Nat.testBit (a <<< 32) i = false := by
      rw [Nat.testBit_shiftLeft]
      simp [Nat.not_le_of_lt hi]
    have hsum : a <<< 32 + b = b + a * 2 ^ (32 - i) * 2 ^ i := by
      rw [Nat.shiftLeft_eq, Nat.add_comm, Nat.mul_assoc, ← Nat.pow_add,
        Nat.sub_add_cancel (Nat.le_of_lt hi)]
    have h2 : Nat.testBit (a <<< 32 + b) i = Nat.testBit b i := by
      rw [Nat.testBit_to_div_mod, Nat.testBit_to_div_mod, hsum,
        Nat.add_mul_div_right _ _ (Nat.two_pow_pos i)]
      have : a * 2 ^ (32 - i) = a * 2 ^ (32 - i - 1) * 2 := by
        rw [Nat.mul_assoc]
        congr 1
        rw [← Nat.pow_succ]
        congr 1
        omega
      rw [this, Nat.add_mul_mod_self_right]
    rw [h1, h2]
    simp
  · have h1 : Nat.testBit b i = false := by
      apply Nat.testBit_lt_two_pow
      calc b < 2 ^ 32 := hb
        _ ≤ 2 ^ i := Nat.pow_le_pow_right (by omega) hi
    have h2 : Nat.testBit (a <<< 32) i = Nat.testBit a (i - 32) := by
      rw [Nat.testBit_shiftLeft]
      simp [hi]
    have h3 : Nat.testBit (a <<< 32 + b) i = Nat.testBit a (i - 32) := by
      rw [Nat.testBit_to_div_mod, Nat.testBit_to_div_mod, Nat.shiftLeft_eq]
      have hpow : (2 : Nat) ^ i = 2 ^ 32 * 2 ^ (i - 32) := by
        rw [← Nat.pow_add]
        congr 1
        omega
      rw [hpow, ← Nat.div_div_eq_div_mul]
      have : (a * 2 ^ 32 + b) / 2 ^ 32 = a := by
        rw [Nat.add_comm, Nat.add_mul_div_right _ _ (Nat.two_pow_pos 32),
          Nat.div_eq_of_lt hb]
        omega
      rw [this]
    rw [h1, h2, h3]
    simp

/-- On a two-word payload of 32-bit words, the fold of the `TypeArray` arm
computes the little-endian 64-bit value: low word first. -/
theorem decodeLen_two_words {w0 w1 : Nat} (h0 : w0 < 2 ^ 32)
    (h1 : w1 < 2 ^ 32) : decodeLen [w0, w1] = w0 + w1 * 2 ^ 32 := by
  unfold decodeLen
  simp only [List.reverse_cons, List.reverse_nil, List.nil_append,
    List.cons_append, List.foldl_cons, List.foldl_nil]
  have e1 : ((0 <<< 32) ||| w1) % 2 ^ 64 = w1 := by
    have hz : (0 : Nat) <<< 32 = 0 := by simp [Nat.shiftLeft_eq]
    rw [hz]
    have hz2 : (0 : Nat) ||| w1 = w1 := Nat.zero_or w1
    rw [hz2]
    exact Nat.mod_eq_of_lt (lt_trans h1 (by norm_num))
  rw [e1, lor_shiftLeft32_eq_add h0, Nat.shiftLeft_eq]
  have c32 : (2 : Nat) ^ 32 = 4294967296 := by norm_num
  have c64 : (2 : Nat) ^ 64 = 18446744073709551616 := by norm_num
  have hlt : w1 * 2 ^ 32 + w0 < 2 ^ 64 := by
    rw [c32] at h1 h0 ⊢
    rw [c64]
    omega
  rw [Nat.mod_eq_of_lt hlt, Nat.add_comm]

/-- C4: the capability classification is a total function on the closed
`Capability` enumeration (`capability_name` matches every tag, with no
default arm), and the capability loop of `reflect` emits, for a module
declaring one capability tag, no feature check when the tag is classified
"always available", exactly the one named feature check when it is mapped to
a feature flag, and aborts generation when the tag is classified
unsupported. -/
theorem c4_capability_classification (cap : Capability) :
    capabilityChecks [Instruction.Capability cap] =
      match capability_name cap with
      | .ok none => .ok []
      | .ok (some f) => .ok [f]
      | .error e => .error e := by
  cases cap <;> rfl

/-- A module with a bool type, an array type over it of length-constant id 3,
and a two-word constant payload. -/
def arrayDoc : Spirv :=
  ⟨[.TypeBool 1, .TypeArray 2 1 3, .Constant 0 3 [5, 7]]⟩

/-- C5: array-length resolution locates the first `Constant` instruction
whose result id equals the array type's length id and reinterprets its word
payload `[w0, w1]` as the unsigned 64-bit value `w0 + w1 * 2 ^ 32`
(little-endian word order), which `type_from_id` interpolates into the
resolved array type. -/
theorem c5_array_length_little_endian (doc : Spirv)
    (id rid tid lid w0 w1 fuel : Nat) (t : String)
    (hfind : findTypeInstr doc.instructions id = some (.TypeArray rid tid lid))
    (hconst : findConstant doc.instructions lid = some [w0, w1])
    (h0 : w0 < 2 ^ 32) (h1 : w1 < 2 ^ 32)
    (ht : typeFromIdFuel doc fuel tid = .ok t) :
    typeFromIdFuel doc (fuel + 1) id =
      .ok ("[" ++ t ++ "; " ++ toString (w0 + w1 * 2 ^ 32) ++ "]") ∧
    decodeLen [w0, w1] = w0 + w1 * 2 ^ 32 := by
  have hd := decodeLen_two_words h0 h1
  refine ⟨?_, hd⟩
  simp [typeFromIdFuel, hfind, ht, hconst, hd]

/-- Witness for C5 at a concrete module: payload `[5, 7]` resolves to the
length `5 + 7 * 2 ^ 32 = 30064771077`. -/
theorem c5_witness :
    typeFromIdFuel arrayDoc 2 2 = .ok "[bool; 30064771077]" ∧
    decodeLen [5, 7] = 5 + 7 * 2 ^ 32 := by
  have h := c5_array_length_little_endian arrayDoc 2 2 1 3 5 7 1 "bool"
    (by decide) (by decide) (by norm_num) (by norm_num) (by decide)
  obtain ⟨ha, hb⟩ := h
  refine ⟨?_, hb⟩
  rw [show (2 : Nat) = 1 + 1 from rfl, ha]
  rfl

/-- A module declaring a 64-bit unsigned integer type. -/
def docInt64 : Spirv := ⟨[.TypeInt 1 64 false]⟩

/-- A module declaring a 32-bit signed integer type. -/
def docInt32 : Spirv := ⟨[.TypeInt 1 32 true]⟩

/-- Counterexample to C6 as stated: two modules declaring integer types of
different bit widths and different signedness receive the same resolved
description, so the description does not reflect the declared width or
signedness. -/
theorem c6_counterexample :
    findTypeInstr docInt64.instructions 1 = some (.TypeInt 1 64 false) ∧
    findTypeInstr docInt32.instructions 1 = some (.TypeInt 1 32 true) ∧
    type_from_id docInt64 1 = type_from_id docInt32 1 ∧
    ¬((64 : Nat) = 32 ∧ (false : Bool) = true) := by
  refine ⟨by decide, by decide, by decide, by decide⟩

/-- C6 (amended): `type_from_id` resolves every integer type instruction to
the fixed description `i32` and every float type instruction to the fixed
description `f32`, ignoring the declared bit width and signedness. -/
theorem c6_scalar_fixed_description (doc : Spirv) (id rid w rid' w' : Nat)
    (s : Bool) :
    (findTypeInstr doc.instructions id = some (.TypeInt rid w s) →
      type_from_id doc id = .ok "i32") ∧
    (findTypeInstr doc.instructions id = some (.TypeFloat rid' w') →
      type_from_id doc id = .ok "f32") := by
  constructor
  · intro h
    unfold type_from_id
    cases hl : doc.instructions with
    | nil => rw [hl] at h; simp [findTypeInstr] at h
    | cons a as =>
      rw [List.length_cons]
      simp [typeFromIdFuel, h]
  · intro h
    unfold type_from_id
    cases hl : doc.instructions with
    | nil => rw [hl] at h; simp [findTypeInstr] at h
    | cons a as =>
      rw [List.length_cons]
      simp [typeFromIdFuel, h]

/-- Witness for the amended C6: the 64-bit unsigned integer type of
`docInt64` resolves to `i32`. -/
theorem c6_witness : type_from_id docInt64 1 = .ok "i32" :=
  (c6_scalar_fixed_description docInt64 1 1 64 0 0 false).1 (by decide)

/-- The first `Name` instruction targeting `searched` (the attached name). -/
def attachedName (doc : Spirv) (searched : Nat) : Option String :=
  doc.instructions.findSome? (fun i =>
    match i with
    | .Name target_id n => if target_id = searched then some n else none
    | _ => none)

/-- The first `MemberName` instruction for `(searched, searched_member)`. -/
def attachedMemberName (doc : Spirv) (searched : Nat)
    (searched_member : Nat) : Option String :=
  doc.instructions.findSome? (fun i =>
    match i with
    | .MemberName target_id member n =>
      if target_id = searched && member = searched_member then some n else none
    | _ => none)

/-- The head of a `filterMap` is the first hit of the extraction function. -/
theorem filterMap_head?_eq_findSome? {α β : Type} (f : α → Option β)
    (l : List α) : (l.filterMap f).head? = l.findSome? f := by
  induction l with
  | nil => rfl
  | cons a as ih =>
    cases h : f a <;>
      simp [List.filterMap_cons, List.findSome?_cons, h, ih]

/-- The `and_then` / `unwrap_or` tail of the name lookups, in closed form. -/
theorem bind_nonEmpty_getD (o : Option String) :
    (o.bind (fun n => if !n.isEmpty then some n else none)).getD "__unnamed" =
      match o with
      | some n => if n.isEmpty then "__unnamed" else n
      | none => "__unnamed" := by
  cases o with
  | none => rfl
  | some n => cases h : n.isEmpty <;> simp [Option.bind, h]

/-- C7: `name_from_id` and `member_name_from_id` are total: they return the
attached (first) `Name` / `MemberName` string when present and non-empty,
and the deterministic placeholder `__unnamed` otherwise; no failure outcome
exists (both return plain strings on every module and identifier). -/
theorem c7_name_resolution_total (doc : Spirv) (id member : Nat) :
    (name_from_id doc id =
      match attachedName doc id with
      | some n => if n.isEmpty then "__unnamed" else n
      | none => "__unnamed") ∧
    (member_name_from_id doc id member =
      match attachedMemberName doc id member with
      | some n => if n.isEmpty then "__unnamed" else n
      | none => "__unnamed") := by
  constructor
  · unfold name_from_id attachedName
    rw [filterMap_head?_eq_findSome?]
    exact bind_nonEmpty_getD _
  · unfold member_name_from_id attachedMemberName
    rw [filterMap_head?_eq_findSome?]
    exact bind_nonEmpty_getD _

/-- Which shader stages access a descriptor (`ShaderStages` of
`layout_def.rs`). -/
structure ShaderStages where
  vertex : Bool
  tessellation_control : Bool
  tessellation_evaluation : Bool
  geometry : Bool
  fragment : Bool
  compute : Bool
deriving DecidableEq

/-- The resource kinds a descriptor may hold (`DescriptorType` of
`layout_def.rs`). -/
inductive DescriptorType where
  | Sampler
  | CombinedImageSampler
  | SampledImage
  | StorageImage
  | UniformTexelBuffer
  | StorageTexelBuffer
  | UniformBuffer
  | StorageBuffer
  | UniformBufferDynamic
  | StorageBufferDynamic
  | InputAttachment
deriving DecidableEq

/-- One descriptor description (`DescriptorDesc` of `layout_def.rs`). -/
structure DescriptorDesc where
  binding : Nat
  ty : DescriptorType
  array_count : Nat
  stages : ShaderStages
deriving DecidableEq

/-- The `Layout` trait bound of `layout_def.rs` (pipeline-layout types);
only its presence matters to the blanket implementation below. -/
class Layout (α : Type) where
  DescriptorSets : Type

instance : Layout (List DescriptorDesc) := ⟨Unit⟩

/-- The blanket `LayoutPossibleSuperset` implementation of `layout_def.rs`
(the `CRITICAL FIXME: temporary hack`): it ignores both layouts entirely. -/
def is_superset_of {T U : Type} [Layout T] [Layout U] (_self : T)
    (_other : U) : Bool :=
  true

/-- The documented contract of `is_superset_of`, following the trait doc's
words: all the descriptors in `Other` are also in `self` with an identical
definition. -/
def documentedSuperset (self other : List DescriptorDesc) : Prop :=
  ∀ d ∈ other, d ∈ self

/-- A sample descriptor description. -/
def exampleDesc : DescriptorDesc :=
  ⟨0, .Sampler, 1, ⟨true, true, true, true, true, true⟩⟩

/-- C10: under the blanket implementation, `is_superset_of` returns `true`
for every pair of layout types and every pair of values, and in particular
for a concrete pair of descriptor lists that violates the documented
superset contract — the documented check is vacuous. -/
theorem c10_blanket_superset_vacuous :
    (∀ (T U : Type) (iT : Layout T) (iU : Layout U) (s : T) (o : U),
      is_superset_of s o = true) ∧
    (∃ s o : List DescriptorDesc,
      ¬documentedSuperset s o ∧ is_superset_of s o = true) := by
  refine ⟨fun _ _ _ _ _ _ => rfl, ⟨[], [exampleDesc], ?_, rfl⟩⟩
  intro h
  exact List.not_mem_nil exampleDesc (h exampleDesc (by simp))

/-- Whether `i` is a type instruction (one of the variants the search loop of
`type_from_id` can return at). -/
def isTypeInstr (i : Instruction) : Bool :=
  match i with
  | .TypeVoid _ => true
  | .TypeBool _ => true
  | .TypeInt _ _ _ => true
  | .TypeFloat _ _ => true
  | .TypeVector _ _ _ => true
  | .TypeMatrix _ _ _ => true
  | .TypeImage _ _ _ _ _ _ _ _ _ => true
  | .TypeSampledImage _ _ => true
  | .TypeArray _ _ _ => true
  | .TypeRuntimeArray _ _ => true
  | .TypeStruct _ _ => true
  | .TypeOpaque _ _ => true
  | .TypePointer _ _ _ => true
  | _ => false

/-- The type ids `type_from_id` recurses into from one type instruction. -/
def typeRefs (i : Instruction) : List Nat :=
  match i with
  | .TypeVector _ component_id _ => [component_id]
  | .TypeMatrix _ column_type_id _ => [column_type_id]
  | .TypeSampledImage _ image_type_id => [image_type_id]
  | .TypeArray _ type_id _ => [type_id]
  | .TypeRuntimeArray _ type_id => [type_id]
  | .TypePointer _ type_id _ => [type_id]
  | _ => []

/-- The index of the first type instruction with result id `searched`. -/
def firstTypeIdx (instrs : List Instruction) (searched : Nat) : Option Nat :=
  match instrs with
  | [] => none
  | i :: rest =>
    if isTypeInstrWithId i searched then some 0
    else (firstTypeIdx rest searched).map (· + 1)

theorem firstTypeIdx_lt_length {instrs : List Instruction} {id i : Nat}
    (h : firstTypeIdx instrs id = some i) : i < instrs.length := by
  induction instrs generalizing i with
  | nil => simp [firstTypeIdx] at h
  | cons a as ih =>
    simp only [firstTypeIdx] at h
    by_cases ha : isTypeInstrWithId a id = true
    · rw [if_pos ha] at h
      cases h
      simp
    · rw [if_neg ha] at h
      cases ho : firstTypeIdx as id with
      | none => rw [ho] at h; simp at h
      | some j =>
        rw [ho] at h
        simp only [Option.map] at h
        cases h
        have := ih ho
        simp only [List.length_cons]
        omega

theorem findTypeInstr_of_firstTypeIdx {instrs : List Instruction} {id i : Nat}
    (h : firstTypeIdx instrs id = some i) :
    ∃ instr, instrs[i]? = some instr ∧ isTypeInstrWithId instr id = true ∧
      findTypeInstr instrs id = some instr := by
  induction instrs generalizing i with
  | nil => simp [firstTypeIdx] at h
  | cons a as ih =>
    simp only [firstTypeIdx] at h
    by_cases ha : isTypeInstrWithId a id = true
    · rw [if_pos ha] at h
      cases h
      exact ⟨a, by simp, ha, by rw [findTypeInstr]; exact List.find?_cons_of_pos _ ha⟩
    · rw [if_neg ha] at h
      cases ho : firstTypeIdx as id with
      | none => rw [ho] at h; simp at h
      | some j =>
        rw [ho] at h
        simp only [Option.map] at h
        cases h
        obtain ⟨instr, hget, hty, hfind⟩ := ih ho
        refine ⟨instr, by simpa using hget, hty, ?_⟩
        rw [findTypeInstr, List.find?_cons_of_neg _ (by simpa using ha)]
        exact hfind

theorem firstTypeIdx_isSome_of_findTypeInstr {instrs : List Instruction}
    {id : Nat} (h : (findTypeInstr instrs id).isSome) :
    ∃ i, firstTypeIdx instrs id = some i := by
  induction instrs with
  | nil => simp [findTypeInstr, List.find?] at h
  | cons a as ih =>
    by_cases ha : isTypeInstrWithId a id = true
    · exact ⟨0, by simp [firstTypeIdx, ha]⟩
    · rw [findTypeInstr, List.find?_cons_of_neg _ (by simpa using ha)] at h
      obtain ⟨i, hi⟩ := ih h
      exact ⟨i + 1, by simp [firstTypeIdx, ha, hi]⟩

theorem isTypeInstr_of_withId {instr : Instruction} {id : Nat}
    (h : isTypeInstrWithId instr id = true) : isTypeInstr instr = true := by
  cases instr <;> simp_all [isTypeInstrWithId, isTypeInstr]

/-- Well-formedness of the type declaration at index `i`: every type id it
recurses into is first declared strictly earlier in the instruction
sequence, and an array's length id resolves to some `Constant` instruction.
This is the def-before-use discipline SPIR-V imposes on type declarations. -/
def typeDeclOkAt (doc : Spirv) (i : Nat) : Bool :=
  match doc.instructions[i]? with
  | some instr =>
    !(isTypeInstr instr) ||
      ((typeRefs instr).all (fun r =>
          match firstTypeIdx doc.instructions r with
          | some j => decide (j < i)
          | none => false) &&
        (match instr with
         | .TypeArray _ _ length_id =>
           (findConstant doc.instructions length_id).isSome
         | _ => true))
  | none => true

/-- A module contains only well-formed type declarations. -/
def wellFormedTypes (doc : Spirv) : Bool :=
  (List.range doc.instructions.length).all (fun i => typeDeclOkAt doc i)

/-- With fuel exceeding the index of the first matching type instruction,
`type_from_id` on a well-formed module succeeds. -/
theorem typeFromIdFuel_ok_of_wf (doc : Spirv)
    (hwf : wellFormedTypes doc = true) :
    ∀ fuel id i, firstTypeIdx doc.instructions id = some i → i < fuel →
      ∃ s, typeFromIdFuel doc fuel id = .ok s := by
  intro fuel
  induction fuel with
  | zero => intro id i _ hi; exact absurd hi (Nat.not_lt_zero i)
  | succ fuel ih =>
    intro id i hfirst hi
    obtain ⟨instr, hget, htyid, hfind⟩ := findTypeInstr_of_firstTypeIdx hfirst
    have hlen : i < doc.instructions.length := firstTypeIdx_lt_length hfirst
    have hok : typeDeclOkAt doc i = true :=
      List.all_eq_true.mp hwf i (List.mem_range.mpr hlen)
    simp only [typeDeclOkAt, hget] at hok
    rw [isTypeInstr_of_withId htyid] at hok
    simp only [Bool.not_true, Bool.false_or, Bool.and_eq_true,
      List.all_eq_true] at hok
    obtain ⟨hrefs, hextra⟩ := hok
    have hrec : ∀ r ∈ typeRefs instr, ∃ s', typeFromIdFuel doc fuel r = .ok s' := by
      intro r hr
      have := hrefs r hr
      cases hj : firstTypeIdx doc.instructions r with
      | none => rw [hj] at this; simp at this
      | some j =>
        rw [hj] at this
        simp only [decide_eq_true_eq] at this
        exact ih r j hj (by omega)
    cases instr with
    | TypeVoid r => exact ⟨"()", by simp [typeFromIdFuel, hfind]⟩
    | TypeBool r => exact ⟨"bool", by simp [typeFromIdFuel, hfind]⟩
    | TypeInt r w s => exact ⟨"i32", by simp [typeFromIdFuel, hfind]⟩
    | TypeFloat r w => exact ⟨"f32", by simp [typeFromIdFuel, hfind]⟩
    | TypeVector r c n =>
      obtain ⟨s', hs⟩ := hrec c (by simp [typeRefs])
      exact ⟨"[" ++ s' ++ "; " ++ toString n ++ "]",
        by simp [typeFromIdFuel, hfind, hs]⟩
    | TypeMatrix r c n =>
      obtain ⟨s', hs⟩ := hrec c (by simp [typeRefs])
      exact ⟨"[" ++ s' ++ "; " ++ toString n ++ "]",
        by simp [typeFromIdFuel, hfind, hs]⟩
    | TypeImage r st dim depth arrayed ms sampled format access =>
      exact ⟨(if ms then "Multisample" else "")
        ++ (if depth = some true then "Depth" else "")
        ++ "Texture" ++ dimDebug dim
        ++ (if arrayed then "Array" else "")
        ++ imageFormatDebug format, by simp [typeFromIdFuel, hfind]⟩
    | TypeSampledImage r img =>
      obtain ⟨s', hs⟩ := hrec img (by simp [typeRefs])
      exact ⟨s', by simp [typeFromIdFuel, hfind, hs]⟩
    | TypeArray r t l =>
      obtain ⟨s', hs⟩ := hrec t (by simp [typeRefs])
      simp only at hextra
      obtain ⟨data, hdata⟩ := Option.isSome_iff_exists.mp hextra
      exact ⟨"[" ++ s' ++ "; " ++ toString (decodeLen data) ++ "]",
        by simp [typeFromIdFuel, hfind, hs, hdata]⟩
    | TypeRuntimeArray r t =>
      obtain ⟨s', hs⟩ := hrec t (by simp [typeRefs])
      exact ⟨"[" ++ s' ++ "]", by simp [typeFromIdFuel, hfind, hs]⟩
    | TypeStruct r mems =>
      exact ⟨name_from_id doc r, by simp [typeFromIdFuel, hfind]⟩
    | TypeOpaque r n => exact ⟨"<opaque>", by simp [typeFromIdFuel, hfind]⟩
    | TypePointer r t sc =>
      obtain ⟨s', hs⟩ := hrec t (by simp [typeRefs])
      exact ⟨s', by simp [typeFromIdFuel, hfind, hs]⟩
    | Unknown op ops => simp [isTypeInstrWithId] at htyid
    | Name a b => simp [isTypeInstrWithId] at htyid
    | MemberName a b c => simp [isTypeInstrWithId] at htyid
    | EntryPoint a b c d => simp [isTypeInstrWithId] at htyid
    | Capability c => simp [isTypeInstrWithId] at htyid
    | Constant a b c => simp [isTypeInstrWithId] at htyid
    | Variable a b c => simp [isTypeInstrWithId] at htyid
    | Decorate a b c => simp [isTypeInstrWithId] at htyid
    | MemberDecorate a b c d => simp [isTypeInstrWithId] at htyid
    | FunctionEnd => simp [isTypeInstrWithId] at htyid

/-- C2: on a module containing only well-formed type declarations,
`type_from_id` succeeds (never reaches the `Type # not found` panic) for
every identifier that is the result id of a type instruction; for an
identifier that is not the result id of any type instruction it always
fails with exactly that panic, at any fuel. -/
theorem c2_type_resolution (doc : Spirv) (id : Nat) :
    (wellFormedTypes doc = true → (findTypeInstr doc.instructions id).isSome →
      ∃ s, type_from_id doc id = .ok s) ∧
    ((∀ instr ∈ doc.instructions, isTypeInstrWithId instr id = false) →
      ∀ fuel, typeFromIdFuel doc fuel id = .error (.typeNotFound id)) := by
  constructor
  · intro hwf hsome
    obtain ⟨i, hi⟩ := firstTypeIdx_isSome_of_findTypeInstr hsome
    exact typeFromIdFuel_ok_of_wf doc hwf _ id i hi (firstTypeIdx_lt_length hi)
  · intro hnone fuel
    have hfind : findTypeInstr doc.instructions id = none := by
      rw [findTypeInstr, List.find?_eq_none]
      intro x hx
      simp [hnone x hx]
    cases fuel with
    | zero => rfl
    | succ fuel => simp [typeFromIdFuel, hfind]

/-- A well-formed module: a bool type and a vector type over it. -/
def wfDoc : Spirv := ⟨[.TypeBool 1, .TypeVector 2 1 4]⟩

/-- Witness for C2: on `wfDoc`, id 2 (a type result id) resolves, and id 3
(no type instruction) fails with the not-found panic at every small fuel. -/
theorem c2_witness :
    (∃ s, type_from_id wfDoc 2 = .ok s) ∧
    typeFromIdFuel wfDoc 7 3 = .error (.typeNotFound 3) :=
  ⟨(c2_type_resolution wfDoc 2).1 (by decide) (by decide),
   (c2_type_resolution wfDoc 3).2 (by decide) 7⟩

/-- The entries the inner vertex scan collects for interface id `iid` over an
instruction list, in instruction order: resolved type, location and name of
each matching non-builtin `Input`-class variable whose type and location
resolve.  This is the pure description the loop characterizations below
relate to `vertexInner`. -/
def vertexEntriesOn (doc : Spirv) (iid : Nat)
    (instrs : List Instruction) : List (String × Nat × String) :=
  instrs.filterMap (fun i =>
    match i with
    | .Variable result_type_id result_id .StorageClassInput =>
      if result_id = iid && !is_builtin doc result_id then
        match type_from_id doc result_type_id,
            location_decoration doc result_id with
        | .ok t, .ok (some loc) =>
          some (t, loc, name_from_id doc result_id)
        | _, _ => none
      else none
    | _ => none)

/-- The attribute list of the vertex branch in the order the code produces
it: outer iteration over the entry point's interface list, inner iteration
over the instruction sequence. -/
def interfaceOrderAttributes (doc : Spirv) (interface : List Nat) :
    List (Nat × String) :=
  interface.flatMap (fun iid =>
    (vertexEntriesOn doc iid doc.instructions).map (fun e => e.2))

/-- On success, the inner vertex scan appends exactly the entries of
`vertexEntriesOn` to both accumulators. -/
theorem vertexInner_ok (doc : Spirv) (iid : Nat) :
    ∀ (instrs : List Instruction) (acc : List String × List (Nat × String)) r,
      vertexInner doc iid acc instrs = .ok r →
      r = (acc.1 ++ (vertexEntriesOn doc iid instrs).map (fun e => e.1),
           acc.2 ++ (vertexEntriesOn doc iid instrs).map (fun e => e.2)) := by
  intro instrs
  induction instrs with
  | nil =>
    intro acc r h
    simp only [vertexInner] at h
    cases h
    simp [vertexEntriesOn]
  | cons i rest ih =>
    intro acc r h
    cases i with
    | Variable rtid rid sc =>
      cases sc with
      | StorageClassInput =>
        by_cases hrid : rid = iid
        · subst hrid
          by_cases hb : is_builtin doc rid = true
          · simp only [vertexInner, if_pos rfl, hb, if_true] at h
            have := ih acc r h
            simpa [vertexEntriesOn, List.filterMap_cons, hb] using this
          · simp only [Bool.not_eq_true] at hb
            cases ht : type_from_id doc rtid with
            | error e =>
              simp [vertexInner, hb, ht] at h
            | ok t =>
              cases hloc : location_decoration doc rid with
              | error e =>
                simp [vertexInner, hb, ht, hloc] at h
              | ok o =>
                cases o with
                | none =>
                  simp [vertexInner, hb, ht, hloc] at h
                | some loc =>
                  simp only [vertexInner, if_pos rfl, hb, Bool.false_eq_true,
                    if_false, ht, hloc] at h
                  have := ih _ r h
                  rw [this]
                  simp [vertexEntriesOn, List.filterMap_cons, hb, ht,
                    hloc, List.append_assoc]
        · simp only [vertexInner, if_neg hrid] at h
          have := ih acc r h
          simpa [vertexEntriesOn, List.filterMap_cons, hrid] using this
      | StorageClassUniformConstant =>
        have := ih acc r (by simpa [vertexInner] using h)
        simpa [vertexEntriesOn, List.filterMap_cons] using this
      | StorageClassUniform =>
        have := ih acc r (by simpa [vertexInner] using h)
        simpa [vertexEntriesOn, List.filterMap_cons] using this
      | StorageClassOutput =>
        have := ih acc r (by simpa [vertexInner] using h)
        simpa [vertexEntriesOn, List.filterMap_cons] using this
      | StorageClassWorkgroupLocal =>
        have := ih acc r (by simpa [vertexInner] using h)
        simpa [vertexEntriesOn, List.filterMap_cons] using this
      | StorageClassWorkgroupGlobal =>
        have := ih acc r (by simpa [vertexInner] using h)
        simpa [vertexEntriesOn, List.filterMap_cons] using this
      | StorageClassPrivateGlobal =>
        have := ih acc r (by simpa [vertexInner] using h)
        simpa [vertexEntriesOn, List.filterMap_cons] using this
      | StorageClassFunction =>
        have := ih acc r (by simpa [vertexInner] using h)
        simpa [vertexEntriesOn, List.filterMap_cons] using this
      | StorageClassGeneric =>
        have := ih acc r (by simpa [vertexInner] using h)
        simpa [vertexEntriesOn, List.filterMap_cons] using this
      | StorageClassPushConstant =>
        have := ih acc r (by simpa [vertexInner] using h)
        simpa [vertexEntriesOn, List.filterMap_cons] using this
      | StorageClassAtomicCounter =>
        have := ih acc r (by simpa [vertexInner] using h)
        simpa [vertexEntriesOn, List.filterMap_cons] using this
      | StorageClassImage =>
        have := ih acc r (by simpa [vertexInner] using h)
        simpa [vertexEntriesOn, List.filterMap_cons] using this
    | Unknown op ops =>
      have := ih acc r (by simpa [vertexInner] using h)
      simpa [vertexEntriesOn, List.filterMap_cons] using this
    | Name a b =>
      have := ih acc r (by simpa [vertexInner] using h)
      simpa [vertexEntriesOn, List.filterMap_cons] using this
    | MemberName a b c =>
      have := ih acc r (by simpa [vertexInner] using h)
      simpa [vertexEntriesOn, List.filterMap_cons] using this
    | EntryPoint a b c d =>
      have := ih acc r (by simpa [vertexInner] using h)
      simpa [vertexEntriesOn, List.filterMap_cons] using this
    | Capability c =>
      have := ih acc r (by simpa [vertexInner] using h)
      simpa [vertexEntriesOn, List.filterMap_cons] using this
    | TypeVoid a =>
      have := ih acc r (by simpa [vertexInner] using h)
      simpa [vertexEntriesOn, List.filterMap_cons] using this
    | TypeBool a =>
      have := ih acc r (by simpa [vertexInner] using h)
      simpa [vertexEntriesOn, List.filterMap_cons] using this
    | TypeInt a b c =>
      have := ih acc r (by simpa [vertexInner] using h)
      simpa [vertexEntriesOn, List.filterMap_cons] using this
    | TypeFloat a b =>
      have := ih acc r (by simpa [vertexInner] using h)
      simpa [vertexEntriesOn, List.filterMap_cons] using this
    | TypeVector a b c =>
      have := ih acc r (by simpa [vertexInner] using h)
      simpa [vertexEntriesOn, List.filterMap_cons] using this
    | TypeMatrix a b c =>
      have := ih acc r (by simpa [vertexInner] using h)
      simpa [vertexEntriesOn, List.filterMap_cons] using this
    | TypeImage a b c d e f g hh ii =>
      have := ih acc r (by simpa [vertexInner] using h)
      simpa [vertexEntriesOn, List.filterMap_cons] using this
    | TypeSampledImage a b =>
      have := ih acc r (by simpa [vertexInner] using h)
      simpa [vertexEntriesOn, List.filterMap_cons] using this
    | TypeArray a b c =>
      have := ih acc r (by simpa [vertexInner] using h)
      simpa [vertexEntriesOn, List.filterMap_cons] using this
    | TypeRuntimeArray a b =>
      have := ih acc r (by simpa [vertexInner] using h)
      simpa [vertexEntriesOn, List.filterMap_cons] using this
    | TypeStruct a b =>
      have := ih acc r (by simpa [vertexInner] using h)
      simpa [vertexEntriesOn, List.filterMap_cons] using this
    | TypeOpaque a b =>
      have := ih acc r (by simpa [vertexInner] using h)
      simpa [vertexEntriesOn, List.filterMap_cons] using this
    | TypePointer a b c =>
      have := ih acc r (by simpa [vertexInner] using h)
      simpa [vertexEntriesOn, List.filterMap_cons] using this
    | Constant a b c =>
      have := ih acc r (by simpa [vertexInner] using h)
      simpa [vertexEntriesOn, List.filterMap_cons] using this
    | Decorate a b c =>
      have := ih acc r (by simpa [vertexInner] using h)
      simpa [vertexEntriesOn, List.filterMap_cons] using this
    | MemberDecorate a b c d =>
      have := ih acc r (by simpa [vertexInner] using h)
      simpa [vertexEntriesOn, List.filterMap_cons] using this
    | FunctionEnd =>
      have := ih acc r (by simpa [vertexInner] using h)
      simpa [vertexEntriesOn, List.filterMap_cons] using this

/-- Whether an instruction is an `Input`-class variable (the only shape the
vertex scan inspects). -/
def isInputVar (i : Instruction) : Bool :=
  match i with
  | .Variable _ _ .StorageClassInput => true
  | _ => false

/-- Whether an instruction is an `Output`-class variable (the only shape the
fragment scan inspects). -/
def isOutputVar (i : Instruction) : Bool :=
  match i with
  | .Variable _ _ .StorageClassOutput => true
  | _ => false

theorem isInputVar_shape {i : Instruction} (h : isInputVar i = true) :
    ∃ rtid rid, i = .Variable rtid rid .StorageClassInput := by
  cases i
  case Variable a b sc =>
    cases sc
    case StorageClassInput => exact ⟨a, b, rfl⟩
    all_goals simp [isInputVar] at h
  all_goals simp [isInputVar] at h

theorem isOutputVar_shape {i : Instruction} (h : isOutputVar i = true) :
    ∃ rtid rid, i = .Variable rtid rid .StorageClassOutput := by
  cases i
  case Variable a b sc =>
    cases sc
    case StorageClassOutput => exact ⟨a, b, rfl⟩
    all_goals simp [isOutputVar] at h
  all_goals simp [isOutputVar] at h

theorem vertexInner_cons_other (doc : Spirv) (iid : Nat) (acc) (i : Instruction)
    (rest : List Instruction) (hother : isInputVar i = false) :
    vertexInner doc iid acc (i :: rest) = vertexInner doc iid acc rest := by
  cases i with
  | Variable a b sc => cases sc <;> first
    | rfl
    | simp [isInputVar] at hother
  | _ => rfl

theorem vertexEntriesOn_cons_other (doc : Spirv) (iid : Nat) (i : Instruction)
    (rest : List Instruction) (hother : isInputVar i = false) :
    vertexEntriesOn doc iid (i :: rest) = vertexEntriesOn doc iid rest := by
  cases i with
  | Variable a b sc => cases sc <;> first
    | rfl
    | simp [isInputVar] at hother
  | _ => rfl

/-- Success of the inner vertex scan forces every matching non-builtin input
variable to have a resolvable type and a present location. -/
theorem vertexInner_good (doc : Spirv) (iid : Nat) :
    ∀ (instrs : List Instruction) acc r,
      vertexInner doc iid acc instrs = .ok r →
      ∀ rtid, (Instruction.Variable rtid iid .StorageClassInput) ∈ instrs →
        is_builtin doc iid = false →
        (type_from_id doc rtid).isOk = true ∧
        ∃ l, location_decoration doc iid = .ok (some l) := by
  intro instrs
  induction instrs with
  | nil => intro acc r _ rtid hmem; simp at hmem
  | cons i rest ih =>
    intro acc r h rtid hmem hnb
    by_cases hi : isInputVar i = true
    · obtain ⟨rtid', rid', rfl⟩ := isInputVar_shape hi
      by_cases hrid : rid' = iid
      · subst hrid
        rw [show vertexInner doc rid' acc
            (Instruction.Variable rtid' rid' .StorageClassInput :: rest) =
            (if rid' = rid' then
              if is_builtin doc rid' then vertexInner doc rid' acc rest
              else
                match type_from_id doc rtid' with
                | .error e => .error e
                | .ok t =>
                  match location_decoration doc rid' with
                  | .error e => .error e
                  | .ok none =>
                    .error (.missingLocation (name_from_id doc rid'))
                  | .ok (some loc) =>
                    vertexInner doc rid'
                      (acc.1 ++ [t],
                       acc.2 ++ [(loc, name_from_id doc rid')]) rest
            else vertexInner doc rid' acc rest) from rfl] at h
        rw [if_pos rfl, hnb] at h
        simp only [Bool.false_eq_true, if_false] at h
        cases ht : type_from_id doc rtid' with
        | error e => rw [ht] at h; simp at h
        | ok t =>
          rw [ht] at h
          cases hloc : location_decoration doc rid' with
          | error e => rw [hloc] at h; simp at h
          | ok o =>
            cases o with
            | none => rw [hloc] at h; simp at h
            | some l =>
              rw [hloc] at h
              rcases List.mem_cons.mp hmem with heq | hmem'
              · injection heq with h1 h2 h3
                subst h1
                refine ⟨?_, ⟨l, rfl⟩⟩
                rw [ht]
                rfl
              · have hres := ih _ r h rtid hmem' hnb
                exact ⟨hres.1, l, rfl⟩
      · rw [show vertexInner doc iid acc
            (Instruction.Variable rtid' rid' .StorageClassInput :: rest) =
            (if rid' = iid then
              if is_builtin doc rid' then vertexInner doc iid acc rest
              else
                match type_from_id doc rtid' with
                | .error e => .error e
                | .ok t =>
                  match location_decoration doc rid' with
                  | .error e => .error e
                  | .ok none =>
                    .error (.missingLocation (name_from_id doc rid'))
                  | .ok (some loc) =>
                    vertexInner doc iid
                      (acc.1 ++ [t],
                       acc.2 ++ [(loc, name_from_id doc rid')]) rest
            else vertexInner doc iid acc rest) from rfl, if_neg hrid] at h
        rcases List.mem_cons.mp hmem with heq | hmem'
        · injection heq with h1 h2 h3
          exact absurd h2.symm hrid
        · exact ih _ r h rtid hmem' hnb
    · rw [vertexInner_cons_other doc iid acc i rest
        (by simpa using hi)] at h
      rcases List.mem_cons.mp hmem with heq | hmem'
      · rw [← heq] at hi
        simp [isInputVar] at hi
      · exact ih _ r h rtid hmem' hnb

/-- Definitional unfolding of the inner vertex scan at an input variable. -/
theorem vertexInner_cons_input (doc : Spirv) (iid : Nat)
    (acc : List String × List (Nat × String)) (rtid rid : Nat)
    (rest : List Instruction) :
    vertexInner doc iid acc
        (Instruction.Variable rtid rid .StorageClassInput :: rest) =
      if rid = iid then
        if is_builtin doc rid then vertexInner doc iid acc rest
        else
          match type_from_id doc rtid with
          | .error e => .error e
          | .ok t =>
            match location_decoration doc rid with
            | .error e => .error e
            | .ok none => .error (.missingLocation (name_from_id doc rid))
            | .ok (some loc) =>
              vertexInner doc iid
                (acc.1 ++ [t], acc.2 ++ [(loc, name_from_id doc rid)]) rest
      else vertexInner doc iid acc rest := rfl

/-- If every matching input variable has a resolvable type and (when not a
builtin) a present location, the inner vertex scan succeeds. -/
theorem vertexInner_ok_of_good (doc : Spirv) (iid : Nat) :
    ∀ (instrs : List Instruction) acc,
      (∀ rtid, (Instruction.Variable rtid iid .StorageClassInput) ∈ instrs →
        is_builtin doc iid = false →
        (type_from_id doc rtid).isOk = true ∧
        ∃ l, location_decoration doc iid = .ok (some l)) →
      ∃ r, vertexInner doc iid acc instrs = .ok r := by
  intro instrs
  induction instrs with
  | nil => intro acc _; exact ⟨acc, rfl⟩
  | cons i rest ih =>
    intro acc hgood
    by_cases hi : isInputVar i = true
    · obtain ⟨rtid', rid', rfl⟩ := isInputVar_shape hi
      rw [vertexInner_cons_input]
      by_cases hrid : rid' = iid
      · rw [if_pos hrid]
        by_cases hb : is_builtin doc rid' = true
        · rw [if_pos hb]
          exact ih acc (fun rtid hm => hgood rtid (List.mem_cons_of_mem _ hm))
        · have hb' : is_builtin doc rid' = false := by
            simpa using hb
          rw [if_neg hb]
          have hhead := hgood rtid' (by rw [hrid]; exact List.mem_cons_self _ _)
            (by rw [← hrid]; exact hb')
          obtain ⟨htok, l, hl⟩ := hhead
          cases ht : type_from_id doc rtid' with
          | error e => rw [ht] at htok; simp [Except.isOk, Except.toBool] at htok
          | ok t =>
            rw [← hrid] at hl
            rw [hl]
            exact ih _ (fun rtid hm => hgood rtid (List.mem_cons_of_mem _ hm))
      · rw [if_neg hrid]
        exact ih acc (fun rtid hm => hgood rtid (List.mem_cons_of_mem _ hm))
    · rw [vertexInner_cons_other doc iid acc i rest (by simpa using hi)]
      exact ih acc (fun rtid hm => hgood rtid (List.mem_cons_of_mem _ hm))

/-- If the interface id has no location, at least one matching non-builtin
input variable exists, and every matching variable's type resolves, the
inner vertex scan fails with the missing-location panic naming that id's
name. -/
theorem vertexInner_missing (doc : Spirv) (iid : Nat)
    (hlocn : location_decoration doc iid = .ok none)
    (hnb : is_builtin doc iid = false) :
    ∀ (instrs : List Instruction) acc,
      (∀ rtid, (Instruction.Variable rtid iid .StorageClassInput) ∈ instrs →
        (type_from_id doc rtid).isOk = true) →
      (∃ rtid, (Instruction.Variable rtid iid .StorageClassInput) ∈ instrs) →
      vertexInner doc iid acc instrs =
        .error (.missingLocation (name_from_id doc iid)) := by
  intro instrs
  induction instrs with
  | nil => intro acc _ hex; obtain ⟨rtid, hm⟩ := hex; simp at hm
  | cons i rest ih =>
    intro acc hty hex
    by_cases hi : isInputVar i = true
    · obtain ⟨rtid', rid', rfl⟩ := isInputVar_shape hi
      rw [vertexInner_cons_input]
      by_cases hrid : rid' = iid
      · subst hrid
        rw [if_pos rfl, hnb]
        simp only [Bool.false_eq_true, if_false]
        have htok := hty rtid' (List.mem_cons_self _ _)
        cases ht : type_from_id doc rtid' with
        | error e => rw [ht] at htok; simp [Except.isOk, Except.toBool] at htok
        | ok t => rw [hlocn]
      · rw [if_neg hrid]
        obtain ⟨rtid, hm⟩ := hex
        rcases List.mem_cons.mp hm with heq | hm'
        · injection heq with h1 h2 h3
          exact absurd h2.symm hrid
        · exact ih acc (fun rtid2 hm2 => hty rtid2 (List.mem_cons_of_mem _ hm2))
            ⟨rtid, hm'⟩
    · rw [vertexInner_cons_other doc iid acc i rest (by simpa using hi)]
      obtain ⟨rtid, hm⟩ := hex
      rcases List.mem_cons.mp hm with heq | hm'
      · rw [← heq] at hi
        simp [isInputVar] at hi
      · exact ih acc (fun rtid2 hm2 => hty rtid2 (List.mem_cons_of_mem _ hm2))
          ⟨rtid, hm'⟩

/-- On success, the vertex outer loop appends, per interface id in interface
order, the entries of each inner scan. -/
theorem vertexOuter_ok (doc : Spirv) :
    ∀ (interface : List Nat) (acc : List String × List (Nat × String)) r,
      vertexOuter doc acc interface = .ok r →
      r = (acc.1 ++ interface.flatMap (fun iid =>
             (vertexEntriesOn doc iid doc.instructions).map (fun e => e.1)),
           acc.2 ++ interface.flatMap (fun iid =>
             (vertexEntriesOn doc iid doc.instructions).map (fun e => e.2))) := by
  intro interface
  induction interface with
  | nil =>
    intro acc r h
    simp only [vertexOuter] at h
    cases h
    simp
  | cons iid rest ih =>
    intro acc r h
    rw [show vertexOuter doc acc (iid :: rest) =
        (match vertexInner doc iid acc doc.instructions with
         | .error e => .error e
         | .ok acc' => vertexOuter doc acc' rest) from rfl] at h
    cases hin : vertexInner doc iid acc doc.instructions with
    | error e => rw [hin] at h; simp at h
    | ok acc' =>
      rw [hin] at h
      have h1 := vertexInner_ok doc iid doc.instructions acc acc' hin
      have h2 := ih acc' r h
      rw [h2, h1]
      simp [List.flatMap_cons, List.append_assoc]

/-- Success of the vertex extraction forces every matching non-builtin input
variable of every interface id to have a resolvable type and a present
location. -/
theorem vertexOuter_good (doc : Spirv) :
    ∀ (interface : List Nat) (acc : List String × List (Nat × String)) r,
      vertexOuter doc acc interface = .ok r →
      ∀ iid ∈ interface, ∀ rtid,
        (Instruction.Variable rtid iid .StorageClassInput) ∈ doc.instructions →
        is_builtin doc iid = false →
        (type_from_id doc rtid).isOk = true ∧
        ∃ l, location_decoration doc iid = .ok (some l) := by
  intro interface
  induction interface with
  | nil => intro acc r _ iid hmem; simp at hmem
  | cons iid0 rest ih =>
    intro acc r h iid hmem rtid hvar hnb
    rw [show vertexOuter doc acc (iid0 :: rest) =
        (match vertexInner doc iid0 acc doc.instructions with
         | .error e => .error e
         | .ok acc' => vertexOuter doc acc' rest) from rfl] at h
    cases hin : vertexInner doc iid0 acc doc.instructions with
    | error e => rw [hin] at h; simp at h
    | ok acc' =>
      rw [hin] at h
      rcases List.mem_cons.mp hmem with heq | hmem'
      · subst heq
        exact vertexInner_good doc iid doc.instructions acc acc' hin rtid
          hvar hnb
      · exact ih acc' r h iid hmem' rtid hvar hnb

/-- If every matching variable type of every interface id resolves, every
interface id's location lookup does not panic, and some interface id has a
matching non-builtin input variable but no location, the vertex extraction
fails with the missing-location panic naming such an id. -/
theorem vertexOuter_missing (doc : Spirv) :
    ∀ (interface : List Nat) (acc : List String × List (Nat × String)),
      (∀ iid ∈ interface, ∀ rtid,
        (Instruction.Variable rtid iid .StorageClassInput) ∈ doc.instructions →
        is_builtin doc iid = false →
        (type_from_id doc rtid).isOk = true) →
      (∀ iid ∈ interface, (location_decoration doc iid).isOk = true) →
      (∃ iid ∈ interface,
        (∃ rtid,
          (Instruction.Variable rtid iid .StorageClassInput) ∈
            doc.instructions) ∧
        is_builtin doc iid = false ∧
        location_decoration doc iid = .ok none) →
      ∃ vid ∈ interface,
        (∃ rtid,
          (Instruction.Variable rtid vid .StorageClassInput) ∈
            doc.instructions) ∧
        is_builtin doc vid = false ∧
        location_decoration doc vid = .ok none ∧
        vertexOuter doc acc interface =
          .error (.missingLocation (name_from_id doc vid)) := by
  intro interface
  induction interface with
  | nil => intro acc _ _ hbad; obtain ⟨iid, hm, _⟩ := hbad; simp at hm
  | cons iid0 rest ih =>
    intro acc hall hlocok hbad
    by_cases h0 : (∃ rtid,
        (Instruction.Variable rtid iid0 .StorageClassInput) ∈
          doc.instructions) ∧
        is_builtin doc iid0 = false ∧
        location_decoration doc iid0 = .ok none
    · obtain ⟨hex, hnb, hlocn⟩ := h0
      have hinner := vertexInner_missing doc iid0 hlocn hnb doc.instructions
        acc (fun rtid hm => hall iid0 (List.mem_cons_self _ _) rtid hm hnb)
        hex
      refine ⟨iid0, List.mem_cons_self _ _, hex, hnb, hlocn, ?_⟩
      rw [show vertexOuter doc acc (iid0 :: rest) =
          (match vertexInner doc iid0 acc doc.instructions with
           | .error e => .error e
           | .ok acc' => vertexOuter doc acc' rest) from rfl, hinner]
    · have hgood : ∀ rtid,
          (Instruction.Variable rtid iid0 .StorageClassInput) ∈
            doc.instructions →
          is_builtin doc iid0 = false →
          (type_from_id doc rtid).isOk = true ∧
          ∃ l, location_decoration doc iid0 = .ok (some l) := by
        intro rtid hm hnb
        refine ⟨hall iid0 (List.mem_cons_self _ _) rtid hm hnb, ?_⟩
        have hlo := hlocok iid0 (List.mem_cons_self _ _)
        cases hl : location_decoration doc iid0 with
        | error e => rw [hl] at hlo; simp [Except.isOk, Except.toBool] at hlo
        | ok o =>
          cases o with
          | none => exact absurd ⟨⟨rtid, hm⟩, hnb, hl⟩ h0
          | some l => exact ⟨l, rfl⟩
      obtain ⟨acc', hacc'⟩ := vertexInner_ok_of_good doc iid0
        doc.instructions acc hgood
      obtain ⟨vid, hvmem, hvex, hvnb, hvlocn⟩ := hbad
      have hvrest : vid ∈ rest := by
        rcases List.mem_cons.mp hvmem with heq | hm'
        · exact absurd (heq ▸ ⟨hvex, hvnb, hvlocn⟩) h0
        · exact hm'
      obtain ⟨vid2, hv2mem, hv2ex, hv2nb, hv2locn, houter⟩ := ih acc'
        (fun iid hm => hall iid (List.mem_cons_of_mem _ hm))
        (fun iid hm => hlocok iid (List.mem_cons_of_mem _ hm))
        ⟨vid, hvrest, hvex, hvnb, hvlocn⟩
      refine ⟨vid2, List.mem_cons_of_mem _ hv2mem, hv2ex, hv2nb, hv2locn, ?_⟩
      rw [show vertexOuter doc acc (iid0 :: rest) =
          (match vertexInner doc iid0 acc doc.instructions with
           | .error e => .error e
           | .ok acc' => vertexOuter doc acc' rest) from rfl, hacc']
      exact houter

/-- C1: for a vertex-stage interface variable of storage class `Input` that
is not a builtin, the extractor resolves its `Location` decoration: on
success the variable's `(location, name)` pair is among the produced
attributes (no entry is ever produced without a location), and when the
`Location` decoration is absent the extraction never succeeds and — whenever
all variable types resolve and no location lookup itself panics — fails with
the missing-location panic naming a variable whose location is absent. -/
theorem c1_vertex_location_required (doc : Spirv) (interface : List Nat)
    (rtid vid : Nat)
    (hvar : (Instruction.Variable rtid vid .StorageClassInput) ∈
      doc.instructions)
    (hiid : vid ∈ interface)
    (hnb : is_builtin doc vid = false) :
    (∀ r, vertexData doc interface = .ok r →
      ∃ l, location_decoration doc vid = .ok (some l) ∧
        (l, name_from_id doc vid) ∈ r.2) ∧
    (location_decoration doc vid = .ok none →
      (∀ r, vertexData doc interface ≠ .ok r) ∧
      ((∀ iid ∈ interface, ∀ rtid2,
          (Instruction.Variable rtid2 iid .StorageClassInput) ∈
            doc.instructions →
          is_builtin doc iid = false →
          (type_from_id doc rtid2).isOk = true) →
        (∀ iid ∈ interface, (location_decoration doc iid).isOk = true) →
        ∃ vid2 ∈ interface,
          (∃ rtid2,
            (Instruction.Variable rtid2 vid2 .StorageClassInput) ∈
              doc.instructions) ∧
          is_builtin doc vid2 = false ∧
          location_decoration doc vid2 = .ok none ∧
          vertexData doc interface =
            .error (.missingLocation (name_from_id doc vid2)))) := by
  constructor
  · intro r hr
    obtain ⟨htok, l, hl⟩ := vertexOuter_good doc interface ([], []) r hr
      vid hiid rtid hvar hnb
    refine ⟨l, hl, ?_⟩
    have hch := vertexOuter_ok doc interface ([], []) r hr
    rw [hch]
    simp only [List.nil_append]
    apply List.mem_flatMap.mpr
    refine ⟨vid, hiid, ?_⟩
    apply List.mem_map.mpr
    obtain ⟨t, ht⟩ : ∃ t, type_from_id doc rtid = .ok t := by
      cases ht : type_from_id doc rtid with
      | error e => rw [ht] at htok; simp [Except.isOk, Except.toBool] at htok
      | ok t => exact ⟨t, rfl⟩
    refine ⟨(t, l, name_from_id doc vid), ?_, rfl⟩
    apply List.mem_filterMap.mpr
    refine ⟨Instruction.Variable rtid vid .StorageClassInput, hvar, ?_⟩
    simp [hnb, ht, hl]
  · intro hlocn
    constructor
    · intro r hr
      obtain ⟨_, l, hl⟩ := vertexOuter_good doc interface ([], []) r hr
        vid hiid rtid hvar hnb
      rw [hlocn] at hl
      simp at hl
    · intro hall hlocok
      exact vertexOuter_missing doc interface ([], []) hall hlocok
        ⟨vid, hiid, ⟨rtid, hvar⟩, hnb, hlocn⟩

/-- A vertex input variable with a location, for the C1 witness. -/
def gdoc : Spirv := ⟨[.Name 1 "pos", .Decorate 1 .DecorationLocation [4],
  .TypeFloat 10 32, .Variable 10 1 .StorageClassInput]⟩

/-- Witness for C1 at a concrete module: the located input variable's
`(location, name)` pair appears among the produced attributes. -/
theorem c1_witness :
    ∃ l, location_decoration gdoc 1 = .ok (some l) ∧
      (l, name_from_id gdoc 1) ∈ [((4 : Nat), "pos")] :=
  (c1_vertex_location_required gdoc [1] 10 1 (by decide) (by decide)
    (by decide)).1 (["f32"], [(4, "pos")]) (by decide)

/-- The module of the C3 counterexample: two located input variables whose
interface-list order `[2, 1]` differs from their instruction order. -/
def cdoc : Spirv := ⟨[
  .Name 1 "a", .Name 2 "b",
  .Decorate 1 .DecorationLocation [7],
  .Decorate 2 .DecorationLocation [3],
  .TypeFloat 10 32,
  .Variable 10 1 .StorageClassInput,
  .Variable 10 2 .StorageClassInput]⟩

/-- The attribute list in the order the claim states: iteration order over
the module's instruction sequence (outer loop over instructions). -/
def instructionOrderAttributes (doc : Spirv) (interface : List Nat) :
    List (Nat × String) :=
  doc.instructions.filterMap (fun i =>
    match i with
    | .Variable result_type_id result_id .StorageClassInput =>
      if interface.contains result_id && !is_builtin doc result_id then
        match type_from_id doc result_type_id,
            location_decoration doc result_id with
        | .ok _, .ok (some loc) => some (loc, name_from_id doc result_id)
        | _, _ => none
      else none
    | _ => none)

/-- Counterexample to C3 as stated: on `cdoc` with interface list `[2, 1]`
the extractor produces the attributes in interface-list order
`[(3, b), (7, a)]`, which differs from the instruction-sequence order
`[(7, a), (3, b)]`. -/
theorem c3_counterexample :
    vertexData cdoc [2, 1] = .ok (["f32", "f32"], [(3, "b"), (7, "a")]) ∧
    instructionOrderAttributes cdoc [2, 1] = [(7, "a"), (3, "b")] ∧
    ([((3 : Nat), "b"), (7, "a")] : List (Nat × String)) ≠
      [(7, "a"), (3, "b")] :=
  ⟨by decide, by decide, by decide⟩

/-- C3 (amended): for every vertex-stage entry point, the accumulated
ordered attribute list is keyed by iteration order over the entry point's
interface id list (for each id, its matching instructions in instruction
order), not sorted by location — and not, in general, by iteration order
over the module's instruction sequence. -/
theorem c3_attributes_interface_order (doc : Spirv) (interface : List Nat)
    (r : List String × List (Nat × String))
    (h : vertexData doc interface = .ok r) :
    r.2 = interfaceOrderAttributes doc interface := by
  have hch := vertexOuter_ok doc interface ([], []) r h
  rw [hch]
  simp [interfaceOrderAttributes]

/-- Witness for the amended C3 at the counterexample module. -/
theorem c3_witness :
    ([((3 : Nat), "b"), (7, "a")] : List (Nat × String)) =
      interfaceOrderAttributes cdoc [2, 1] :=
  c3_attributes_interface_order cdoc [2, 1]
    (["f32", "f32"], [(3, "b"), (7, "a")]) (by decide)

/-- The entries the inner fragment scan collects for interface id `iid`: the
resolved type of each matching `Output`-class variable — with no builtin
filtering. -/
def fragEntriesOn (doc : Spirv) (iid : Nat)
    (instrs : List Instruction) : List String :=
  instrs.filterMap (fun i =>
    match i with
    | .Variable result_type_id result_id .StorageClassOutput =>
      if result_id = iid then
        match type_from_id doc result_type_id with
        | .ok t => some t
        | .error _ => none
      else none
    | _ => none)

/-- Definitional unfolding of the inner fragment scan at an output variable. -/
theorem fragmentInner_cons_output (doc : Spirv) (iid : Nat)
    (acc : List String) (rtid rid : Nat) (rest : List Instruction) :
    fragmentInner doc iid acc
        (Instruction.Variable rtid rid .StorageClassOutput :: rest) =
      if rid = iid then
        match type_from_id doc rtid with
        | .error e => .error e
        | .ok t => fragmentInner doc iid (acc ++ [t]) rest
      else fragmentInner doc iid acc rest := rfl

theorem fragmentInner_cons_other (doc : Spirv) (iid : Nat) (acc : List String)
    (i : Instruction) (rest : List Instruction)
    (hother : isOutputVar i = false) :
    fragmentInner doc iid acc (i :: rest) = fragmentInner doc iid acc rest := by
  cases i with
  | Variable a b sc => cases sc <;> first
    | rfl
    | simp [isOutputVar] at hother
  | _ => rfl

theorem fragEntriesOn_cons_other (doc : Spirv) (iid : Nat) (i : Instruction)
    (rest : List Instruction) (hother : isOutputVar i = false) :
    fragEntriesOn doc iid (i :: rest) = fragEntriesOn doc iid rest := by
  cases i with
  | Variable a b sc => cases sc <;> first
    | rfl
    | simp [isOutputVar] at hother
  | _ => rfl

/-- On success, the inner fragment scan appends exactly the entries of
`fragEntriesOn` to the accumulator. -/
theorem fragmentInner_ok (doc : Spirv) (iid : Nat) :
    ∀ (instrs : List Instruction) (acc : List String) r,
      fragmentInner doc iid acc instrs = .ok r →
      r = acc ++ fragEntriesOn doc iid instrs := by
  intro instrs
  induction instrs with
  | nil =>
    intro acc r h
    simp only [fragmentInner] at h
    cases h
    simp [fragEntriesOn]
  | cons i rest ih =>
    intro acc r h
    by_cases hi : isOutputVar i = true
    · obtain ⟨rtid', rid', rfl⟩ := isOutputVar_shape hi
      rw [fragmentInner_cons_output] at h
      by_cases hrid : rid' = iid
      · rw [if_pos hrid] at h
        cases ht : type_from_id doc rtid' with
        | error e => rw [ht] at h; simp at h
        | ok t =>
          rw [ht] at h
          have := ih _ r h
          rw [this]
          simp [fragEntriesOn, List.filterMap_cons, hrid, ht,
            List.append_assoc]
      · rw [if_neg hrid] at h
        have := ih acc r h
        rw [this]
        simp [fragEntriesOn, List.filterMap_cons, hrid]
    · rw [fragmentInner_cons_other doc iid acc i rest (by simpa using hi)] at h
      have := ih acc r h
      rw [this, fragEntriesOn_cons_other doc iid i rest (by simpa using hi)]

/-- On success, the fragment outer loop appends, per interface id in
interface order, the entries of each inner scan. -/
theorem fragmentOuter_ok (doc : Spirv) :
    ∀ (interface : List Nat) (acc : List String) r,
      fragmentOuter doc acc interface = .ok r →
      r = acc ++ interface.flatMap (fun iid =>
        fragEntriesOn doc iid doc.instructions) := by
  intro interface
  induction interface with
  | nil =>
    intro acc r h
    simp only [fragmentOuter] at h
    cases h
    simp
  | cons iid rest ih =>
    intro acc r h
    rw [show fragmentOuter doc acc (iid :: rest) =
        (match fragmentInner doc iid acc doc.instructions with
         | .error e => .error e
         | .ok acc' => fragmentOuter doc acc' rest) from rfl] at h
    cases hin : fragmentInner doc iid acc doc.instructions with
    | error e => rw [hin] at h; simp at h
    | ok acc' =>
      rw [hin] at h
      have h1 := fragmentInner_ok doc iid doc.instructions acc acc' hin
      have h2 := ih acc' r h
      rw [h2, h1]
      simp [List.flatMap_cons, List.append_assoc]

/-- C8: for every fragment-stage entry point, the output list is exactly the
resolved types of the `Output`-class interface variables — the collection
applies no builtin filtering, so a builtin-decorated output variable's type
is still included — whereas the vertex input scan skips a builtin variable
entirely (producing no entry for it). -/
theorem c8_fragment_no_builtin_filter (doc : Spirv) (interface : List Nat)
    (rtid vid : Nat) (t : String) (outs : List String) :
    (fragmentData doc interface = .ok outs →
      outs = interface.flatMap (fun iid =>
        fragEntriesOn doc iid doc.instructions)) ∧
    ((Instruction.Variable rtid vid .StorageClassOutput) ∈ doc.instructions →
      vid ∈ interface → type_from_id doc rtid = .ok t →
      fragmentData doc interface = .ok outs → t ∈ outs) ∧
    (is_builtin doc vid = true →
      (∀ acc, vertexInner doc vid acc
        [.Variable rtid vid .StorageClassInput] = .ok acc) ∧
      (type_from_id doc rtid = .ok t →
        ∀ acc, fragmentInner doc vid acc
          [.Variable rtid vid .StorageClassOutput] = .ok (acc ++ [t]))) := by
  refine ⟨?_, ?_, ?_⟩
  · intro h
    have := fragmentOuter_ok doc interface [] outs h
    simpa using this
  · intro hvar hiid ht h
    have hch := fragmentOuter_ok doc interface [] outs h
    rw [hch]
    simp only [List.nil_append]
    apply List.mem_flatMap.mpr
    refine ⟨vid, hiid, ?_⟩
    apply List.mem_filterMap.mpr
    refine ⟨Instruction.Variable rtid vid .StorageClassOutput, hvar, ?_⟩
    simp [ht]
  · intro hb
    constructor
    · intro acc
      rw [vertexInner_cons_input, if_pos rfl, if_pos hb]
      rfl
    · intro ht acc
      rw [fragmentInner_cons_output, if_pos rfl, ht]
      rfl

/-- A builtin-decorated output variable, for the C8 witness. -/
def fdoc : Spirv := ⟨[.Decorate 1 .DecorationBuiltIn [0], .TypeFloat 10 32,
  .Variable 10 1 .StorageClassOutput]⟩

/-- Witness for C8 at a concrete module: the builtin-decorated output
variable's type is included in the fragment outputs, while the same builtin
id contributes nothing to a vertex input scan. -/
theorem c8_witness :
    "f32" ∈ ["f32"] ∧
    vertexInner fdoc 1 ([], []) [.Variable 10 1 .StorageClassInput] =
      .ok ([], []) ∧
    fragmentInner fdoc 1 [] [.Variable 10 1 .StorageClassOutput] =
      .ok ["f32"] := by
  have h := c8_fragment_no_builtin_filter fdoc [1] 10 1 "f32" ["f32"]
  refine ⟨h.2.1 (by decide) (by decide) (by decide) (by decide),
    (h.2.2 (by decide)).1 ([], []), ?_⟩
  have := (h.2.2 (by decide)).2 (by decide) []
  simpa using this

/-- The four bytes of a 32-bit word, in little-endian byte order. -/
def wordBytes (w : Nat) : List Nat :=
  [w % 256, w / 256 % 256, w / 65536 % 256, w / 16777216 % 256]

/-- Modelled from the spec: byte-to-word assembly of the binary decoder
(`parse.rs` is not under `src/`); raw bytes form 32-bit words in
little-endian byte order. -/
def bytesToWords : List Nat → List Nat
  | b0 :: b1 :: b2 :: b3 :: rest =>
    ((b0 % 256) + (b1 % 256) * 256 + (b2 % 256) * 65536
      + (b3 % 256) * 16777216) :: bytesToWords rest
  | _ => []

/-- Modelled from the spec: decoding of a nul-terminated string packed into
words (`parse.rs` is not under `src/`): bytes of each word in little-endian
order up to the first zero byte; returns the string and the words after it. -/
def decodeStringGo : List Nat → List Char × List Nat
  | [] => ([], [])
  | w :: rest =>
    let bs := wordBytes w
    if bs.contains 0 then
      ((bs.takeWhile (fun b => b ≠ 0)).map Char.ofNat, rest)
    else
      let p := decodeStringGo rest
      (bs.map Char.ofNat ++ p.1, p.2)

/-- String decoding entry point: the decoded text and the remaining words. -/
def decodeString (words : List Nat) : String × List Nat :=
  let p := decodeStringGo words
  (String.mk p.1, p.2)

/-- Modelled from the spec: numeric decoding of the execution model operand. -/
def executionModelFromNat : Nat → Except ParseError ExecutionModel
  | 0 => .ok .ExecutionModelVertex
  | 1 => .ok .ExecutionModelTessellationControl
  | 2 => .ok .ExecutionModelTessellationEvaluation
  | 3 => .ok .ExecutionModelGeometry
  | 4 => .ok .ExecutionModelFragment
  | 5 => .ok .ExecutionModelGLCompute
  | 6 => .ok .ExecutionModelKernel
  | n => .error (.unknownEnumValue "ExecutionModel" n)

/-- Modelled from the spec: numeric decoding of the storage class operand. -/
def storageClassFromNat : Nat → Except ParseError StorageClass
  | 0 => .ok .StorageClassUniformConstant
  | 1 => .ok .StorageClassInput
  | 2 => .ok .StorageClassUniform
  | 3 => .ok .StorageClassOutput
  | 4 => .ok .StorageClassWorkgroupLocal
  | 5 => .ok .StorageClassWorkgroupGlobal
  | 6 => .ok .StorageClassPrivateGlobal
  | 7 => .ok .StorageClassFunction
  | 8 => .ok .StorageClassGeneric
  | 9 => .ok .StorageClassPushConstant
  | 10 => .ok .StorageClassAtomicCounter
  | 11 => .ok .StorageClassImage
  | n => .error (.unknownEnumValue "StorageClass" n)

/-- Modelled from the spec: numeric decoding of the decoration operand (the
subset of decorations modelled here). -/
def decorationFromNat : Nat → Except ParseError Decoration
  | 0 => .ok .DecorationRelaxedPrecision
  | 1 => .ok .DecorationSpecId
  | 2 => .ok .DecorationBlock
  | 3 => .ok .DecorationBufferBlock
  | 4 => .ok .DecorationRowMajor
  | 5 => .ok .DecorationColMajor
  | 6 => .ok .DecorationArrayStride
  | 7 => .ok .DecorationMatrixStride
  | 11 => .ok .DecorationBuiltIn
  | 13 => .ok .DecorationNoPerspective
  | 14 => .ok .DecorationFlat
  | 30 => .ok .DecorationLocation
  | 31 => .ok .DecorationComponent
  | 32 => .ok .DecorationIndex
  | 33 => .ok .DecorationBinding
  | 34 => .ok .DecorationDescriptorSet
  | 35 => .ok .DecorationOffset
  | n => .error (.unknownEnumValue "Decoration" n)

/-- Modelled from the spec: numeric decoding of the image dimensionality. -/
def dimFromNat : Nat → Except ParseError Dim
  | 0 => .ok .Dim1D
  | 1 => .ok .Dim2D
  | 2 => .ok .Dim3D
  | 3 => .ok .DimCube
  | 4 => .ok .DimRect
  | 5 => .ok .DimBuffer
  | 6 => .ok .DimSubpassData
  | n => .error (.unknownEnumValue "Dim" n)

/-- Modelled from the spec: numeric decoding of the image format. -/
def imageFormatFromNat : Nat → Except ParseError ImageFormat
  | 0 => .ok .ImageFormatUnknown
  | 1 => .ok .ImageFormatRgba32f
  | 2 => .ok .ImageFormatRgba16f
  | 3 => .ok .ImageFormatR32f
  | 4 => .ok .ImageFormatRgba8
  | 5 => .ok .ImageFormatRgba8Snorm
  | 6 => .ok .ImageFormatRg32f
  | 7 => .ok .ImageFormatRg16f
  | 8 => .ok .ImageFormatR11fG11fB10f
  | 9 => .ok .ImageFormatR16f
  | 10 => .ok .ImageFormatRgba16
  | 11 => .ok .ImageFormatRgb10A2
  | 12 => .ok .ImageFormatRg16
  | 13 => .ok .ImageFormatRg8
  | 14 => .ok .ImageFormatR16
  | 15 => .ok .ImageFormatR8
  | 16 => .ok .ImageFormatRgba16Snorm
  | 17 => .ok .ImageFormatRg16Snorm
  | 18 => .ok .ImageFormatRg8Snorm
  | 19 => .ok .ImageFormatR16Snorm
  | 20 => .ok .ImageFormatR8Snorm
  | 21 => .ok .ImageFormatRgba32i
  | 22 => .ok .ImageFormatRgba16i
  | 23 => .ok .ImageFormatRgba8i
  | 24 => .ok .ImageFormatR32i
  | 25 => .ok .ImageFormatRg32i
  | 26 => .ok .ImageFormatRg16i
  | 27 => .ok .ImageFormatRg8i
  | 28 => .ok .ImageFormatR16i
  | 29 => .ok .ImageFormatR8i
  | 30 => .ok .ImageFormatRgba32ui
  | 31 => .ok .ImageFormatRgba16ui
  | 32 => .ok .ImageFormatRgba8ui
  | 33 => .ok .ImageFormatR32ui
  | 34 => .ok .ImageFormatRgb10a2ui
  | 35 => .ok .ImageFormatRg32ui
  | 36 => .ok .ImageFormatRg16ui
  | 37 => .ok .ImageFormatRg8ui
  | 38 => .ok .ImageFormatR16ui
  | 39 => .ok .ImageFormatR8ui
  | n => .error (.unknownEnumValue "ImageFormat" n)

/-- Modelled from the spec: numeric decoding of the access qualifier. -/
def accessQualifierFromNat : Nat → Except ParseError AccessQualifier
  | 0 => .ok .AccessQualifierReadOnly
  | 1 => .ok .AccessQualifierWriteOnly
  | 2 => .ok .AccessQualifierReadWrite
  | n => .error (.unknownEnumValue "AccessQualifier" n)

/-- Modelled from the spec: numeric decoding of the capability tag. -/
def capabilityFromNat : Nat → Except ParseError Capability
  | 0 => .ok .CapabilityMatrix
  | 1 => .ok .CapabilityShader
  | 2 => .ok .CapabilityGeometry
  | 3 => .ok .CapabilityTessellation
  | 4 => .ok .CapabilityAddresses
  | 5 => .ok .CapabilityLinkage
  | 6 => .ok .CapabilityKernel
  | 7 => .ok .CapabilityVector16
  | 8 => .ok .CapabilityFloat16Buffer
  | 9 => .ok .CapabilityFloat16
  | 10 => .ok .CapabilityFloat64
  | 11 => .ok .CapabilityInt64
  | 12 => .ok .CapabilityInt64Atomics
  | 13 => .ok .CapabilityImageBasic
  | 14 => .ok .CapabilityImageReadWrite
  | 15 => .ok .CapabilityImageMipmap
  | 17 => .ok .CapabilityPipes
  | 18 => .ok .CapabilityGroups
  | 19 => .ok .CapabilityDeviceEnqueue
  | 20 => .ok .CapabilityLiteralSampler
  | 21 => .ok .CapabilityAtomicStorage
  | 22 => .ok .CapabilityInt16
  | 23 => .ok .CapabilityTessellationPointSize
  | 24 => .ok .CapabilityGeometryPointSize
  | 25 => .ok .CapabilityImageGatherExtended
  | 27 => .ok .CapabilityStorageImageMultisample
  | 28 => .ok .CapabilityUniformBufferArrayDynamicIndexing
  | 29 => .ok .CapabilitySampledImageArrayDynamicIndexing
  | 30 => .ok .CapabilityStorageBufferArrayDynamicIndexing
  | 31 => .ok .CapabilityStorageImageArrayDynamicIndexing
  | 32 => .ok .CapabilityClipDistance
  | 33 => .ok .CapabilityCullDistance
  | 34 => .ok .CapabilityImageCubeArray
  | 35 => .ok .CapabilitySampleRateShading
  | 36 => .ok .CapabilityImageRect
  | 37 => .ok .CapabilitySampledRect
  | 38 => .ok .CapabilityGenericPointer
  | 39 => .ok .CapabilityInt8
  | 40 => .ok .CapabilityInputAttachment
  | 41 => .ok .CapabilitySparseResidency
  | 42 => .ok .CapabilityMinLod
  | 43 => .ok .CapabilitySampled1D
  | 44 => .ok .CapabilityImage1D
  | 45 => .ok .CapabilitySampledCubeArray
  | 46 => .ok .CapabilitySampledBuffer
  | 47 => .ok .CapabilityImageBuffer
  | 48 => .ok .CapabilityImageMSArray
  | 49 => .ok .CapabilityStorageImageExtendedFormats
  | 50 => .ok .CapabilityImageQuery
  | 51 => .ok .CapabilityDerivativeControl
  | 52 => .ok .CapabilityInterpolationFunction
  | 53 => .ok .CapabilityTransformFeedback
  | 54 => .ok .CapabilityGeometryStreams
  | 55 => .ok .CapabilityStorageImageReadWithoutFormat
  | 56 => .ok .CapabilityStorageImageWriteWithoutFormat
  | 57 => .ok .CapabilityMultiViewport
  | n => .error (.unknownEnumValue "Capability" n)

/-- Modelled from the spec: per-opcode instruction decoding (`parse.rs` is
not under `src/`); the variants the reflector interprets are decoded by
their SPIR-V 1.0 layouts, every other opcode is preserved opaquely. -/
def decodeInstruction (opcode : Nat) (operands : List Nat) :
    Except ParseError Instruction :=
  match opcode, operands with
  | 5, target :: rest => .ok (.Name target (decodeString rest).1)
  | 6, target :: member :: rest =>
    .ok (.MemberName target member (decodeString rest).1)
  | 15, em :: id :: rest =>
    match executionModelFromNat em with
    | .error e => .error e
    | .ok e =>
      let p := decodeString rest
      .ok (.EntryPoint e id p.1 p.2)
  | 17, [c] =>
    match capabilityFromNat c with
    | .error e => .error e
    | .ok cap => .ok (.Capability cap)
  | 19, [r] => .ok (.TypeVoid r)
  | 20, [r] => .ok (.TypeBool r)
  | 21, [r, w, s] => .ok (.TypeInt r w (s != 0))
  | 22, [r, w] => .ok (.TypeFloat r w)
  | 23, [r, c, n] => .ok (.TypeVector r c n)
  | 24, [r, c, n] => .ok (.TypeMatrix r c n)
  | 25, r :: st :: dim :: depth :: arrayed :: ms :: sampled :: format :: rest =>
    match dimFromNat dim with
    | .error e => .error e
    | .ok dim' =>
      match imageFormatFromNat format with
      | .error e => .error e
      | .ok format' =>
        match (match rest with
          | [] => .ok none
          | a :: _ =>
            match accessQualifierFromNat a with
            | .error e => .error e
            | .ok q => .ok (some q) : Except ParseError (Option AccessQualifier)) with
        | .error e => .error e
        | .ok access =>
          .ok (.TypeImage r st dim'
            (if depth = 0 then some false
             else if depth = 1 then some true else none)
            (arrayed != 0) (ms != 0)
            (if sampled = 1 then some true
             else if sampled = 2 then some false else none)
            format' access)
  | 27, [r, i] => .ok (.TypeSampledImage r i)
  | 28, [r, t, l] => .ok (.TypeArray r t l)
  | 29, [r, t] => .ok (.TypeRuntimeArray r t)
  | 30, r :: mems => .ok (.TypeStruct r mems)
  | 31, r :: rest => .ok (.TypeOpaque r (decodeString rest).1)
  | 32, [r, sc, t] =>
    match storageClassFromNat sc with
    | .error e => .error e
    | .ok sc' => .ok (.TypePointer r t sc')
  | 43, rt :: r :: data => .ok (.Constant rt r data)
  | 56, [] => .ok .FunctionEnd
  | 59, [rt, r, sc] =>
    match storageClassFromNat sc with
    | .error e => .error e
    | .ok sc' => .ok (.Variable rt r sc')
  | 59, [rt, r, sc, _init] =>
    match storageClassFromNat sc with
    | .error e => .error e
    | .ok sc' => .ok (.Variable rt r sc')
  | 71, target :: dec :: ps =>
    match decorationFromNat dec with
    | .error e => .error e
    | .ok d => .ok (.Decorate target d ps)
  | 72, target :: member :: dec :: ps =>
    match decorationFromNat dec with
    | .error e => .error e
    | .ok d => .ok (.MemberDecorate target member d ps)
  | op, ops => .ok (.Unknown op ops)

/-- Modelled from the spec: the instruction framing loop (`parse.rs` is not
under `src/`): each instruction is a `(word count, opcode)` word followed by
`word count - 1` operand words; a zero word count or one past the end of the
stream fails.  The fuel argument (the remaining word count suffices) makes
the recursion structural. -/
def parseInstructions : Nat → List Nat → Except ParseError (List Instruction)
  | _, [] => .ok []
  | 0, _ :: _ => .error .incompleteInstruction
  | fuel + 1, w :: rest =>
    let wordCount := w / 65536
    let opcode := w % 65536
    if wordCount = 0 then .error .zeroWordCount
    else if (w :: rest).length < wordCount then .error .incompleteInstruction
    else
      match decodeInstruction opcode (((w :: rest).take wordCount).drop 1) with
      | .error e => .error e
      | .ok instr =>
        match parseInstructions fuel ((w :: rest).drop wordCount) with
        | .error e => .error e
        | .ok instrs => .ok (instr :: instrs)

/-- Modelled from the spec: the binary decoder (`parse::parse_spirv`,
`parse.rs` is not under `src/`).  Per §4.1/§6: a sequence shorter than the
five-word header fails with `MissingHeader`, a wrong magic word fails with
`WrongHeader`, and the rest decodes as a length-prefixed instruction stream. -/
def parse_spirv (data : List Nat) : Except ParseError Spirv :=
  if data.length < 20 then .error .missingHeader
  else if data.length % 4 ≠ 0 then .error .incompleteInstruction
  else
    match bytesToWords data with
    | magic :: _version :: _generator :: _bound :: _schema :: rest =>
      if magic ≠ 119734787 then .error .wrongHeader
      else
        match parseInstructions rest.length rest with
        | .error e => .error e
        | .ok instrs => .ok ⟨instrs⟩
    | _ => .error .missingHeader

/-- Member rendering of the struct layout extractor: one line per member
index, with the member name (placeholder when absent) and resolved type. -/
def structMembersText (doc : Spirv) (sid : Nat) :
    List (Nat × Nat) → String → Except ReflectError String
  | [], acc => .ok acc
  | (idx, tyId) :: rest, acc =>
    match type_from_id doc tyId with
    | .error e => .error e
    | .ok t =>
      structMembersText doc sid rest
        (acc ++ "    pub " ++ member_name_from_id doc sid idx ++ ": " ++ t
          ++ ",\n")

/-- The traversal of the struct layout extractor over the instruction list. -/
def writeStructsGo (doc : Spirv) :
    List Instruction → String → Except ReflectError String
  | [], acc => .ok acc
  | .TypeStruct rid membs :: rest, acc =>
    match structMembersText doc rid membs.enum "" with
    | .error e => .error e
    | .ok fields =>
      writeStructsGo doc rest
        (acc ++ "#[repr(C)]\npub struct " ++ name_from_id doc rid
          ++ " \x7b\n" ++ fields ++ "\x7d\n")
  | _ :: rest, acc => writeStructsGo doc rest acc

/-- Modelled from the spec: the struct layout extractor
(`structs::write_structs`, `structs.rs` is not under `src/`).  Per §4.4: for
every struct-type instruction, emit one definition with the resolved struct
name and, per member index in original order, the member's name and semantic
type. -/
def write_structs (doc : Spirv) : Except ReflectError String :=
  writeStructsGo doc doc.instructions ""

/-- The first `Binding` decoration value targeting `searched`. -/
def bindingDecoration (doc : Spirv) (searched : Nat) :
    Except ReflectError (Option Nat) :=
  match doc.instructions.findSome? (fun i =>
      match i with
      | .Decorate target_id .DecorationBinding params =>
        if target_id = searched then some params else none
      | _ => none) with
  | some params =>
    match params.head? with
    | some b => .ok (some b)
    | none => .error .decorationIndexOutOfBounds
  | none => .ok none

/-- The first `DescriptorSet` decoration value targeting `searched`. -/
def setDecoration (doc : Spirv) (searched : Nat) :
    Except ReflectError (Option Nat) :=
  match doc.instructions.findSome? (fun i =>
      match i with
      | .Decorate target_id .DecorationDescriptorSet params =>
        if target_id = searched then some params else none
      | _ => none) with
  | some params =>
    match params.head? with
    | some s => .ok (some s)
    | none => .error .decorationIndexOutOfBounds
  | none => .ok none

/-- Whether a storage class marks a shader resource variable. -/
def isResourceClass : StorageClass → Bool
  | .StorageClassUniform => true
  | .StorageClassUniformConstant => true
  | _ => false

/-- Collection step of the descriptor-set extractor: every resource-class
variable must carry both a `DescriptorSet` and a `Binding` decoration; a
missing one is a fatal malformed-module condition naming the variable. -/
def collectResources (doc : Spirv) :
    List Instruction → Except ReflectError (List (Nat × Nat × String))
  | [] => .ok []
  | .Variable _ rid sc :: rest =>
    if isResourceClass sc then
      match setDecoration doc rid with
      | .error e => .error e
      | .ok none => .error (.missingSetDecoration (name_from_id doc rid))
      | .ok (some set) =>
        match bindingDecoration doc rid with
        | .error e => .error e
        | .ok none => .error (.missingBindingDecoration (name_from_id doc rid))
        | .ok (some binding) =>
          match collectResources doc rest with
          | .error e => .error e
          | .ok l => .ok ((set, binding, name_from_id doc rid) :: l)
    else collectResources doc rest
  | _ :: rest => collectResources doc rest

/-- Stable insertion by (set index, binding index). -/
def insertResource (x : Nat × Nat × String) :
    List (Nat × Nat × String) → List (Nat × Nat × String)
  | [] => [x]
  | y :: rest =>
    if x.1 < y.1 || (x.1 = y.1 && x.2.1 ≤ y.2.1) then x :: y :: rest
    else y :: insertResource x rest

/-- Grouping by set index, then binding index. -/
def sortResources (l : List (Nat × Nat × String)) :
    List (Nat × Nat × String) :=
  l.foldr insertResource []

/-- Rendering of the grouped descriptor bindings. -/
def renderResources : List (Nat × Nat × String) → String
  | [] => ""
  | (set, binding, name) :: rest =>
    "// descriptor set " ++ toString set ++ ", binding " ++ toString binding
      ++ ": " ++ name ++ "\n" ++ renderResources rest

/-- Modelled from the spec: the descriptor-set extractor
(`descriptor_sets::write_descriptor_sets`, `descriptor_sets.rs` is not under
`src/`).  Per §4.5: resource-class variables, each requiring `DescriptorSet`
and `Binding` decorations, grouped by set index then binding index. -/
def write_descriptor_sets (doc : Spirv) : Except ReflectError String :=
  match collectResources doc doc.instructions with
  | .error e => .error e
  | .ok resources => .ok (renderResources (sortResources resources))

/-- The capability-check text block of the generated loader: one device
feature check per capability mapped to a feature flag. -/
def capabilityChecksText : List String → String
  | [] => ""
  | cap :: rest =>
    "\n                        if !device.enabled_features()." ++ cap
      ++ " \x7b\n                            panic!(\"capability \x7b:?\x7d not supported\", \""
      ++ cap
      ++ "\")  // FIXME: error\n                            //return Err(CapabilityNotSupported);\n                        \x7d"
      ++ capabilityChecksText rest

/-- The entry point loop of `reflect`: one generated accessor per
`EntryPoint` instruction, appended in instruction order. -/
def entryPointsText (doc : Spirv) :
    List Instruction → String → Except ReflectError String
  | [], acc => .ok acc
  | i :: rest, acc =>
    match i with
    | .EntryPoint _ _ _ _ =>
      match write_entry_point doc i with
      | .error e => .error e
      | .ok s => entryPointsText doc rest (acc ++ s)
    | _ => entryPointsText doc rest acc

/-- `reflect`: the top-level reflection pipeline of `lib.rs` over an
already-materialized byte sequence: decode the module, then emit the loader
header, one feature check per relevant declared capability, the loader
footer embedding the input bytes, one accessor per entry point, the struct
definitions, and the descriptor-set data — in exactly the `push_str` order
of the Rust code.  The decoder and the struct / descriptor emitters are the
spec-modelled components above. -/
def reflect (name : String) (data : List Nat) : Except ReflectError String :=
  match parse_spirv data with
  | .error e => .error (.parseError e)
  | .ok doc =>
    let spirv_data := String.intercalate ", " (data.map toString)
    match capabilityChecks doc.instructions with
    | .error e => .error e
    | .ok caps =>
      match entryPointsText doc doc.instructions "" with
      | .error e => .error e
      | .ok eps =>
        match write_structs doc with
        | .error e => .error e
        | .ok structsText =>
          match write_descriptor_sets doc with
          | .error e => .error e
          | .ok descText =>
            .ok ("\npub struct " ++ name
              ++ " \x7b\n    shader: ::std::sync::Arc<::vulkano::shader::ShaderModule>,\n\x7d\n\nimpl "
              ++ name
              ++ " \x7b\n    /// Loads the shader in Vulkan as a `ShaderModule`.\n    #[inline]\n    pub fn load(device: &::std::sync::Arc<::vulkano::device::Device>)\n                -> Result<"
              ++ name ++ ", ::vulkano::OomError>\n    \x7b\n\n        "
              ++ capabilityChecksText caps
              ++ "\n        unsafe \x7b\n            let data = ["
              ++ spirv_data ++ "];\n\n            Ok(" ++ name
              ++ " \x7b\n                shader: try!(::vulkano::shader::ShaderModule::new(device, &data))\n            \x7d)\n        \x7d\n    \x7d\n\n    /// Returns the module that was created.\n    #[allow(dead_code)]\n    #[inline]\n    pub fn module(&self) -> &::std::sync::Arc<::vulkano::shader::ShaderModule> \x7b\n        &self.shader\n    \x7d\n        "
              ++ eps
              ++ "\n\x7d\n        "
              ++ "pub mod ty \x7b" ++ structsText ++ "\x7d"
              ++ descText)

/-- C9: the reflection pipeline is deterministic — it is a pure function of
the module name and the input byte sequence, so two runs on equal byte
sequences produce equal (byte-identical) outputs.  Every stage of this
embedding (decoding, capability checks, entry point emission, struct and
descriptor emission) is a total deterministic function, so no run-to-run
variation source exists. -/
theorem c9_reflect_deterministic (name : String) (d1 d2 : List Nat)
    (h : d1 = d2) : reflect name d1 = reflect name d2 := by
  rw [h]

/-- Witness for C9 at a concrete byte sequence. -/
theorem c9_witness :
    reflect "Shader" [3, 2, 35, 7] = reflect "Shader" [3, 2, 35, 7] :=
  c9_reflect_deterministic "Shader" [3, 2, 35, 7] [3, 2, 35, 7] rfl
